import Mathlib

/-!
# The pet controller of `opencog/embodiment/Control/OperationalPetController/Pet.cc`

A shallow embedding of the session state machine of `Pet` (mode transitions, exemplar
windows, schema trials, reward routing) together with theorems about it.

Modelling conventions

* The member fields of the C++ object are the fields of `Pet`.  The extra field `trace`
  is not a member: it records, oldest first, every call the controller issues on its
  collaborators (`sender`, `ruleEngine`, and the writes on `atomSpace`).
* `unsigned long` timestamps are natural numbers; the code only stores and compares them.
* A member function that can leave by a `RuntimeException` or run into a read of the first
  element of an empty vector returns an `Outcome`: `ok` (normal return), `thrown` (the
  exception propagates; the payload is the object as the exception leaves it) or
  `undefined` (`front()` or an iterator step on an empty `std::vector`).
* `logger().log(...)` statements change no member and issue no collaborator call, but their
  arguments are evaluated whatever the log level.  Where such an argument reads `front()` of
  a vector, the model has the same read: the call is `undefined` when the vector is empty.
* The operations take their schema argument as `const std::vector<std::string>&`.  In
  `stopLearning`, `startExemplar`, `endExemplar` and `trySchema` every read through that
  reference comes before any write of the member `learningSchema`, so the model passes the
  tokens.  `startLearning` reads the reference again after its forced stop has cleared the
  member; its argument is a `SchemaArg`, which tells whether the reference is to a vector of
  the caller or to the member itself (as `getLearningSchema()` hands it out).
* The collaborator pointers `sender`, `ruleEngine`, `pai` and `atomSpace` are taken to be
  set.  The reads on the knowledge store are the fields of `AtomSpace`; each member function
  takes the store as it answers during that call.  The nodes and links the controller adds
  itself during a call (concept nodes, time info, inheritance links, predicates) are not
  `SL_NODE`s and do not change those answers.
* `Temporal(l, u)` is the plain pair of its bounds.
* The reward magnitudes read from the configuration (`double` in the code) are integers in
  the model; the code only passes them on.
* A run of calls (`run`) goes on after a call that left by an exception, with the object as
  the exception left it, and stops at a call that is undefined.
-/

namespace OperationalPetController

/-- The enumeration `PetMode` (the header declaring it is not part of the sources at hand;
the three enumerators are the ones `Pet.cc` uses). -/
inductive PetMode where
  | LEARNING
  | PLAYING
  | SCAVENGER_HUNT
  deriving DecidableEq, Repr

/-- Atom handles of the knowledge store. -/
abbrev Handle := Nat

/-- A call issued by the controller on one of its collaborators. -/
inductive Event where
  /-- Call `sender->sendFeedback(petId, feedback)` -/
  | sendFeedback (petId feedback : String)
  /-- Call `sender->sendStopLearning(schemaName, args)` -/
  | sendStopLearning (schemaName : String) (args : List String)
  /-- Call `sender->sendExemplar(schemaName, args, ownerId, exemplarAvatarId, atomSpace)` -/
  | sendExemplar (schemaName : String) (args : List String) (ownerId avatarId : String)
  /-- Call `sender->sendTrySchema(schemaName, args)` -/
  | sendTrySchema (schemaName : String) (args : List String)
  /-- Call `sender->sendReward(schemaName, args, triedSchema, reward)` -/
  | sendReward (schemaName : String) (args : List String) (triedSchema : String) (reward : Int)
  /-- Call `ruleEngine->tryExecuteSchema(schemaName)` -/
  | tryExecuteSchema (schemaName : String)
  /-- Call `ruleEngine->rewardRule(timestamp)` -/
  | rewardRule (timestamp : Nat)
  /-- Call `ruleEngine->punishRule(timestamp)` -/
  | punishRule (timestamp : Nat)
  /-- Call `addPropertyPredicate(atomSpace, "is_exemplar_avatar", avatar, myHandle, tv, now)` followed
  by `updateLatestIsExemplarAvatar`; `active` tells whether the mean of `tv` is 1.0 or 0.0. -/
  | isExemplarAvatar (avatarId : String) (avatar : Handle) (active : Bool)
  /-- The annotation of `stopLearning`: the concept node of the trick, its time info over
  the learning session and its inheritance link to the concept `trick`. -/
  | trickSession (schemaName : String) (lower upper : Nat)
  /-- The body of `executeBehaviorEncoder`: the trick concept node with time info over the exemplar
  interval, its inheritance link to the concept `exemplar`, and the run of the
  `BehaviorEncoder` with an action tracker on the exemplar avatar. -/
  | behaviorEncoder (schemaName : String) (lower upper : Nat) (avatarId : String)
  /-- Call `atomSpace->getSpaceServer().markMapAsPersistent(mapHandle)` -/
  | markMapAsPersistent (mapHandle : Handle)
  /-- Call `atomSpace->removeAtom(mapHandle, true)` -/
  | removeAtom (mapHandle : Handle)
  deriving DecidableEq, Repr

/-- The reads the controller performs on the knowledge store. -/
structure AtomSpace where
  /-- Query `getHandleSet(back_inserter(set), SL_NODE, name, true)`: the handles of the nodes of type
  `SL_NODE` (subclasses included) with the given name. -/
  getHandleSet : String → List Handle
  /-- Query `getTimeInfo(back_inserter(pairs), spaceMapNode, Temporal(lower, upper), STARTS_WITHIN)`
  composed with `getAtTimeLink`: the handles of the space maps that start within the interval. -/
  getTimeInfo : Nat → Nat → List Handle
  /-- Query `getSpaceServer().containsMap(mapHandle)` -/
  containsMap : Handle → Bool

/-- The configuration values read through `config().get_double`. -/
structure Config where
  POSITIVE_REWARD : Int
  NEGATIVE_REWARD : Int

/-- The members of `Pet` that the session operations read or write, and the trace of the
calls issued on the collaborators. -/
structure Pet where
  petId : String
  petName : String
  ownerId : String
  exemplarAvatarId : String
  mode : PetMode
  learningSchema : List String
  triedSchema : String
  candidateSchemaExecuted : Bool
  exemplarStartTimestamp : Nat
  exemplarEndTimestamp : Nat
  startLearningSessionTimestamp : Nat
  endLearningSessionTimestamp : Nat
  latestRewardTimestamp : Nat
  latestPunishmentTimestamp : Nat
  grabbedObjId : String
  trace : List Event
  deriving DecidableEq, Repr

/-- How a member function ends. -/
inductive Outcome where
  /-- Normal return, with the object as the call leaves it. -/
  | ok (p : Pet)
  /-- A `RuntimeException` leaves the call, with the object as it is at the throw. -/
  | thrown (p : Pet)
  /-- The call reads `front()` of an empty vector or steps an iterator past its end. -/
  | undefined
  deriving DecidableEq, Repr

/-- Sequencing of statements: what follows runs only after a normal return. -/
def Outcome.bind (o : Outcome) (f : Pet → Outcome) : Outcome :=
  match o with
  | .ok p => f p
  | .thrown p => .thrown p
  | .undefined => .undefined

/-- The constant `const unsigned long Pet::UNDEFINED_TIMESTAMP = 0;` -/
def UNDEFINED_TIMESTAMP : Nat := 0

/-- Record one call on a collaborator. -/
def Pet.emit (p : Pet) (e : Event) : Pet :=
  { p with trace := p.trace ++ [e] }

/-- Member function `Pet::adjustIsExemplarAvatarPredicate(bool active)` -/
def adjustIsExemplarAvatarPredicate (a : AtomSpace) (active : Bool) (p : Pet) : Outcome :=
  if p.exemplarAvatarId ≠ "" then
    let exemplarAvatarSet := a.getHandleSet p.exemplarAvatarId
    if exemplarAvatarSet.length ≠ 1 then
      .thrown p
    else
      .ok (p.emit (.isExemplarAvatar p.exemplarAvatarId (exemplarAvatarSet.headD 0) active))
  else
    .ok p

/-- Member function `Pet::setExemplarAvatarId(const std::string& exemplarAvatarId)` -/
def setExemplarAvatarId (a : AtomSpace) (exemplarAvatarId : String) (p : Pet) : Outcome :=
  (adjustIsExemplarAvatarPredicate a false p).bind fun p =>
  adjustIsExemplarAvatarPredicate a true { p with exemplarAvatarId := exemplarAvatarId }

/-- Member function `Pet::setMode(PetMode mode)` -/
def setMode (a : AtomSpace) (mode : PetMode) (p : Pet) : Outcome :=
  let p := { p with mode := mode }
  match mode with
  | .LEARNING =>
    .ok (p.emit (.sendFeedback p.petId (p.petName ++ " entering \"Learning Mode\"")))
  | .PLAYING =>
    (setExemplarAvatarId a "" p).bind fun p =>
    let p := { p with learningSchema := [], triedSchema := "",
                      exemplarStartTimestamp := UNDEFINED_TIMESTAMP,
                      exemplarEndTimestamp := UNDEFINED_TIMESTAMP }
    .ok (p.emit (.sendFeedback p.petId (p.petName ++ " entering \"Playing Mode\"")))
  | .SCAVENGER_HUNT =>
    .ok (p.emit (.sendFeedback p.petId ""))

/-- The constructor `Pet::Pet`.  The two session timestamps are not initialised by the
constructor; `startSession` and `endSession` are the values the memory happens to hold. -/
def Pet.construct (a : AtomSpace) (petId petName ownerId : String)
    (startSession endSession : Nat) : Outcome :=
  let raw : Pet :=
    { petId := "", petName := "", ownerId := "", exemplarAvatarId := "",
      mode := .PLAYING, learningSchema := [], triedSchema := "",
      candidateSchemaExecuted := true,
      exemplarStartTimestamp := UNDEFINED_TIMESTAMP,
      exemplarEndTimestamp := UNDEFINED_TIMESTAMP,
      startLearningSessionTimestamp := startSession,
      endLearningSessionTimestamp := endSession,
      latestRewardTimestamp := UNDEFINED_TIMESTAMP,
      latestPunishmentTimestamp := UNDEFINED_TIMESTAMP,
      grabbedObjId := "", trace := [] }
  (setMode a .PLAYING raw).bind fun p =>
  .ok { p with petId := petId, petName := petName, ownerId := ownerId,
               triedSchema := "", learningSchema := [], grabbedObjId := "",
               exemplarStartTimestamp := UNDEFINED_TIMESTAMP,
               exemplarEndTimestamp := UNDEFINED_TIMESTAMP,
               candidateSchemaExecuted := true }

/-- Member function `Pet::setTriedSchema(const std::string& triedSchema)` -/
def setTriedSchema (triedSchema : String) (p : Pet) : Pet :=
  { p with triedSchema := triedSchema, candidateSchemaExecuted := false }

/-- Member function `Pet::schemaSelectedToExecute(const std::string& schemaName)` -/
def schemaSelectedToExecute (schemaName : String) (p : Pet) : Pet :=
  if p.triedSchema = schemaName then
    let p := { p with candidateSchemaExecuted := true }
    p.emit (.sendFeedback p.petId (p.petName ++ " trying schema \" " ++ schemaName ++ "\""))
  else
    p

/-- Member function `Pet::isInLearningMode()` -/
def isInLearningMode (p : Pet) : Bool :=
  p.mode == PetMode.LEARNING

/-- Member function `Pet::stopLearning(commandStatement, timestamp)` -/
def stopLearning (a : AtomSpace) (commandStatement : List String) (timestamp : Nat)
    (p : Pet) : Outcome :=
  -- the debug statement reads `commandStatement.front()`
  if commandStatement = [] then
    .undefined
  else
    let p := { p with exemplarStartTimestamp := UNDEFINED_TIMESTAMP,
                      exemplarEndTimestamp := UNDEFINED_TIMESTAMP }
    if p.learningSchema ≠ commandStatement then
      .ok p
    else
      let p := { p with endLearningSessionTimestamp := timestamp }
      match p.learningSchema with
      | [] => .undefined  -- `learningSchema.front()` on the empty vector
      | schemaName :: args =>
        let p := p.emit (.trickSession schemaName p.startLearningSessionTimestamp
                          p.endLearningSessionTimestamp)
        let p := p.emit (.sendStopLearning schemaName args)
        setMode a .PLAYING p

/-- An argument of type `const std::vector<std::string>&` of `startLearning`: a reference to a
vector of the caller, or to the member `learningSchema` of the controller itself, which
`getLearningSchema()` returns by reference. -/
inductive SchemaArg where
  /-- A vector of the caller, holding these tokens. -/
  | vector (tokens : List String)
  /-- The member `learningSchema` of the controller the call is made on. -/
  | getLearningSchema
  deriving DecidableEq, Repr

/-- The tokens read through the reference when the controller is in the state `p`. -/
def SchemaArg.read (commandStatement : SchemaArg) (p : Pet) : List String :=
  match commandStatement with
  | .vector tokens => tokens
  | .getLearningSchema => p.learningSchema

/-- Member function `Pet::startLearning(commandStatement, timestamp)` -/
def startLearning (a : AtomSpace) (commandStatement : SchemaArg) (timestamp : Nat)
    (p : Pet) : Outcome :=
  -- the debug statement reads `commandStatement.front()`
  if commandStatement.read p = [] then
    .undefined
  else
    (if isInLearningMode p then
        -- the warning reads `learningSchema.front()`
        if p.learningSchema = [] then
          .undefined
        else
          let newExemplarAvatarId := p.exemplarAvatarId
          (stopLearning a p.learningSchema timestamp p).bind fun p =>
          setExemplarAvatarId a newExemplarAvatarId p
      else
        .ok p).bind fun p =>
    -- `learningSchema = commandStatement` reads the reference as it is now
    let p := { p with learningSchema := commandStatement.read p,
                      startLearningSessionTimestamp := timestamp }
    setMode a .LEARNING p

/-- Member function `Pet::isExemplarInProgress()` -/
def isExemplarInProgress (p : Pet) : Bool :=
  isInLearningMode p &&
    p.exemplarStartTimestamp != UNDEFINED_TIMESTAMP &&
    p.exemplarEndTimestamp == UNDEFINED_TIMESTAMP

/-- The argument `(commandStatement.size() > 0 ? commandStatement.front() :
learningSchema.front())` of the debug statement that opens `startExemplar`, `endExemplar` and
`trySchema` reads the first element of an empty vector: the argument is empty and so is the
learning schema. -/
def logReadsEmptyFront (commandStatement : List String) (p : Pet) : Prop :=
  ¬ commandStatement.length > 0 ∧ p.learningSchema = []

instance (commandStatement : List String) (p : Pet) :
    Decidable (logReadsEmptyFront commandStatement p) := by
  unfold logReadsEmptyFront; infer_instance

/-- Member function `Pet::startExemplar(commandStatement, timestamp)` -/
def startExemplar (commandStatement : List String) (timestamp : Nat) (p : Pet) : Outcome :=
  if logReadsEmptyFront commandStatement p then
    .undefined
  else if !isInLearningMode p then
    .ok p
  else if p.learningSchema ≠ commandStatement ∧ commandStatement.length > 0 then
    .ok p
  else
    .ok { p with candidateSchemaExecuted := true, exemplarStartTimestamp := timestamp }

/-- Member function `Pet::executeBehaviorEncoder()` -/
def executeBehaviorEncoder (p : Pet) : Outcome :=
  match p.learningSchema with
  | [] => .undefined  -- `learningSchema.front()` on the empty vector
  | schemaName :: _ =>
    .ok (p.emit (.behaviorEncoder schemaName p.exemplarStartTimestamp p.exemplarEndTimestamp
                  p.exemplarAvatarId))

/-- Member function `Pet::updatePersistentSpaceMaps()` -/
def updatePersistentSpaceMaps (a : AtomSpace) (p : Pet) : Pet :=
  if p.exemplarStartTimestamp = UNDEFINED_TIMESTAMP ∨
      p.exemplarEndTimestamp = UNDEFINED_TIMESTAMP then
    p
  else if p.exemplarStartTimestamp > p.exemplarEndTimestamp then
    p
  else
    (a.getTimeInfo p.exemplarStartTimestamp p.exemplarEndTimestamp).foldl
      (fun p mapHandle =>
        if a.containsMap mapHandle then
          p.emit (.markMapAsPersistent mapHandle)
        else
          p.emit (.removeAtom mapHandle))
      p

/-- Member function `Pet::endExemplar(commandStatement, timestamp)` -/
def endExemplar (a : AtomSpace) (commandStatement : List String) (timestamp : Nat)
    (p : Pet) : Outcome :=
  if logReadsEmptyFront commandStatement p then
    .undefined
  else if !isInLearningMode p || p.exemplarStartTimestamp == UNDEFINED_TIMESTAMP then
    .ok p
  else if p.learningSchema ≠ commandStatement ∧ commandStatement.length > 0 then
    .ok p
  else
    let p := { p with exemplarEndTimestamp := timestamp }
    (executeBehaviorEncoder p).bind fun p =>
    let p := updatePersistentSpaceMaps a p
    match p.learningSchema with
    | [] => .undefined  -- `it++` on `learningSchema.begin()` of the empty vector
    | schemaName :: args =>
      let p := p.emit (.sendExemplar schemaName args p.ownerId p.exemplarAvatarId)
      .ok { p with exemplarStartTimestamp := UNDEFINED_TIMESTAMP,
                   exemplarEndTimestamp := UNDEFINED_TIMESTAMP }

/-- Member function `Pet::trySchema(commandStatement, timestamp)` -/
def trySchema (commandStatement : List String) (_timestamp : Nat) (p : Pet) : Outcome :=
  if logReadsEmptyFront commandStatement p then
    .undefined
  else if p.learningSchema ≠ commandStatement ∧ commandStatement.length > 0 then
    .ok p
  else if p.candidateSchemaExecuted then
    match p.learningSchema with
    | [] => .undefined  -- `it++` on `learningSchema.begin()` of the empty vector
    | schemaName :: args => .ok (p.emit (.sendTrySchema schemaName args))
  else
    match p.learningSchema with
    | [] => .undefined  -- `learningSchema.front()` on the empty vector
    | schemaName :: _ => .ok (p.emit (.tryExecuteSchema schemaName))

/-- Member function `Pet::reward(timestamp)` -/
def reward (c : Config) (timestamp : Nat) (p : Pet) : Pet :=
  let p := { p with latestRewardTimestamp := timestamp }
  if isInLearningMode p then
    match p.learningSchema with
    | [] => p
    | schemaName :: args =>
      if schemaName = "" ∨ p.triedSchema = "" then
        p
      else
        let p := { p with candidateSchemaExecuted := true }
        p.emit (.sendReward schemaName args p.triedSchema c.POSITIVE_REWARD)
  else
    p.emit (.rewardRule timestamp)

/-- Member function `Pet::punish(timestamp)` -/
def punish (c : Config) (timestamp : Nat) (p : Pet) : Pet :=
  let p := { p with latestPunishmentTimestamp := timestamp }
  if isInLearningMode p then
    match p.learningSchema with
    | [] => p
    | schemaName :: args =>
      if schemaName = "" ∨ p.triedSchema = "" then
        p
      else
        let p := { p with candidateSchemaExecuted := true }
        p.emit (.sendReward schemaName args p.triedSchema c.NEGATIVE_REWARD)
  else
    p.emit (.punishRule timestamp)

/-- Member function `Pet::restartLearning()` -/
def restartLearning (p : Pet) : Outcome :=
  match p.learningSchema with
  | [] => .thrown p
  | schemaName :: args =>
    if p.exemplarAvatarId = "" then
      .thrown p
    else
      .ok (p.emit (.sendExemplar schemaName args p.ownerId p.exemplarAvatarId))

/-! ## Vocabulary of the statements -/

/-- The demonstration-source id is empty or names exactly one `SL_NODE` of the store: the
condition under which `adjustIsExemplarAvatarPredicate` does not throw. -/
def sourceResolves (a : AtomSpace) (id : String) : Prop :=
  id = "" ∨ (a.getHandleSet id).length = 1

instance (a : AtomSpace) (id : String) : Decidable (sourceResolves a id) := by
  unfold sourceResolves; infer_instance

/-- The store write that `adjustIsExemplarAvatarPredicate(active)` performs for the source
`id`: none for the empty id, one `is_exemplar_avatar` update otherwise. -/
def avatarCalls (a : AtomSpace) (id : String) (active : Bool) : List Event :=
  if id = "" then [] else [.isExemplarAvatar id ((a.getHandleSet id).headD 0) active]

/-- The calls of the persistence step over the window `[lower, upper]`: one per space map that
starts within the window, none when a bound is undefined or the bounds are out of order. -/
def spaceMapCalls (a : AtomSpace) (lower upper : Nat) : List Event :=
  if lower = UNDEFINED_TIMESTAMP ∨ upper = UNDEFINED_TIMESTAMP then []
  else if lower > upper then []
  else (a.getTimeInfo lower upper).map fun mapHandle =>
    if a.containsMap mapHandle then Event.markMapAsPersistent mapHandle
    else Event.removeAtom mapHandle

/-- The call is a message to the learning service. -/
def Event.toLearningService : Event → Bool
  | .sendStopLearning _ _ => true
  | .sendExemplar _ _ _ _ => true
  | .sendTrySchema _ _ => true
  | .sendReward _ _ _ _ => true
  | _ => false

/-- The call is a message on the feedback channel. -/
def Event.toFeedbackChannel : Event → Bool
  | .sendFeedback _ _ => true
  | _ => false

/-- The call is a call on the rule engine. -/
def Event.toRuleEngine : Event → Bool
  | .tryExecuteSchema _ => true
  | .rewardRule _ => true
  | .punishRule _ => true
  | _ => false

/-! ## Concrete stores and controllers used as instances -/

/-- A store without any node or space map. -/
def emptyStore : AtomSpace :=
  { getHandleSet := fun _ => [], getTimeInfo := fun _ _ => [], containsMap := fun _ => false }

/-- A store in which `avatar42` names exactly one node, with two space maps of which the
space server still holds the first. -/
def avatar42Store : AtomSpace :=
  { getHandleSet := fun name => if name = "avatar42" then [7] else [],
    getTimeInfo := fun _ _ => [3, 4],
    containsMap := fun mapHandle => mapHandle == 3 }

/-- The controller `Pet("pet1", "Rex", ..., "owner1", ...)` right after construction. -/
def rex : Pet :=
  { petId := "pet1", petName := "Rex", ownerId := "owner1", exemplarAvatarId := "",
    mode := .PLAYING, learningSchema := [], triedSchema := "",
    candidateSchemaExecuted := true,
    exemplarStartTimestamp := 0, exemplarEndTimestamp := 0,
    startLearningSessionTimestamp := 0, endLearningSessionTimestamp := 0,
    latestRewardTimestamp := 0, latestPunishmentTimestamp := 0,
    grabbedObjId := "", trace := [.sendFeedback "" " entering \"Playing Mode\""] }

/-- The controller `rex` after a failed `setExemplarAvatarId("ghost")` and
`startLearning(["spin"], 1)`. -/
def rexLearningFromGhost : Pet :=
  { rex with exemplarAvatarId := "ghost", mode := .LEARNING, learningSchema := ["spin"],
             startLearningSessionTimestamp := 1,
             trace := rex.trace ++ [.sendFeedback "pet1" "Rex entering \"Learning Mode\""] }

/-- The controller `rex` learning `spin` from the source `avatar42`. -/
def rexLearningFromAvatar42 : Pet :=
  { rex with exemplarAvatarId := "avatar42", mode := .LEARNING, learningSchema := ["spin"],
             startLearningSessionTimestamp := 1 }

/-- The controller `rex` learning the trick `fetch` with the parameter `ball`. -/
def rexLearningFetch : Pet :=
  { rex with mode := .LEARNING, learningSchema := ["fetch", "ball"],
             startLearningSessionTimestamp := 1 }

/-- The controller `rex` in LEARNING mode without a learning schema, a trial pending. -/
def rexLearningNothing : Pet :=
  { rex with mode := .LEARNING, triedSchema := "candidate1", candidateSchemaExecuted := false }

/-- The object the constructor `Pet::Pet` leaves behind: PLAYING mode, nothing learned, the
feedback of the constructor's `setMode(PLAYING)` already sent (with the still empty id and
name). -/
def Pet.fresh (petId petName ownerId : String) (startSession endSession : Nat) : Pet :=
  { petId := petId, petName := petName, ownerId := ownerId, exemplarAvatarId := "",
    mode := .PLAYING, learningSchema := [], triedSchema := "",
    candidateSchemaExecuted := true,
    exemplarStartTimestamp := UNDEFINED_TIMESTAMP,
    exemplarEndTimestamp := UNDEFINED_TIMESTAMP,
    startLearningSessionTimestamp := startSession,
    endLearningSessionTimestamp := endSession,
    latestRewardTimestamp := UNDEFINED_TIMESTAMP,
    latestPunishmentTimestamp := UNDEFINED_TIMESTAMP,
    grabbedObjId := "", trace := [.sendFeedback "" ("" ++ " entering \"Playing Mode\"")] }

/-- The controller `rex` after `startLearning(["fetch", "ball"], 0)`. -/
def rexLearningFetchAtZero : Pet :=
  { rex with mode := .LEARNING, learningSchema := ["fetch", "ball"],
             trace := rex.trace ++ [.sendFeedback "pet1" "Rex entering \"Learning Mode\""] }

/-- The controller `rex` learning `spin` from `avatar42`, a trial `candidate1` pending and an
exemplar window open since 4. -/
def rexSpinning : Pet :=
  { rex with exemplarAvatarId := "avatar42", mode := .LEARNING, learningSchema := ["spin"],
             triedSchema := "candidate1", candidateSchemaExecuted := false,
             startLearningSessionTimestamp := 1, exemplarStartTimestamp := 4 }

/-- Modelled from the spec: the configuration that defines the options `POSITIVE_REWARD` and
`NEGATIVE_REWARD` is not part of the sources at hand; the spec describes the reward magnitude
as a fixed positive constant and the punishment magnitude as a fixed negative constant. -/
def Config.signed (c : Config) : Prop :=
  0 < c.POSITIVE_REWARD ∧ c.NEGATIVE_REWARD < 0

instance (c : Config) : Decidable c.signed := by
  unfold Config.signed; infer_instance

/-- The call asserts a source as the active exemplar avatar. -/
def Event.assertsActive : Event → Bool
  | .isExemplarAvatar _ _ true => true
  | _ => false

/-- The call retracts a source as exemplar avatar. -/
def Event.retracts : Event → Bool
  | .isExemplarAvatar _ _ false => true
  | _ => false

/-- A configuration with the magnitudes 1 and -1. -/
def unitRewards : Config :=
  { POSITIVE_REWARD := 1, NEGATIVE_REWARD := -1 }

/-- The controller `rex` learning `fetch ball` with the trial `candidate1` pending. -/
def rexTryingFetch : Pet :=
  { rex with mode := .LEARNING, learningSchema := ["fetch", "ball"],
             triedSchema := "candidate1", candidateSchemaExecuted := false,
             startLearningSessionTimestamp := 1 }

/-- The controller `rexSpinning` after `endExemplar([], 9)` against `avatar42Store`. -/
def rexSpinningEnded : Pet :=
  { rexSpinning with
      exemplarStartTimestamp := UNDEFINED_TIMESTAMP,
      exemplarEndTimestamp := UNDEFINED_TIMESTAMP,
      trace := rexSpinning.trace
        ++ [.behaviorEncoder "spin" 4 9 "avatar42", .markMapAsPersistent 3, .removeAtom 4,
            .sendExemplar "spin" [] "owner1" "avatar42"] }

/-- The controller `rexSpinning` after `setExemplarAvatarId("avatar42")` against
`avatar42Store`. -/
def rexSpinningReasserted : Pet :=
  { rexSpinning with
      trace := rexSpinning.trace
        ++ [.isExemplarAvatar "avatar42" 7 false, .isExemplarAvatar "avatar42" 7 true] }

/-- A call of one of the session operations of the controller, with its arguments and, where
the operation reads the store, the store as it answers during the call. -/
inductive Op where
  | setMode (a : AtomSpace) (mode : PetMode)
  | startLearning (a : AtomSpace) (commandStatement : SchemaArg) (timestamp : Nat)
  | stopLearning (a : AtomSpace) (commandStatement : List String) (timestamp : Nat)
  | startExemplar (commandStatement : List String) (timestamp : Nat)
  | endExemplar (a : AtomSpace) (commandStatement : List String) (timestamp : Nat)
  | trySchema (commandStatement : List String) (timestamp : Nat)
  | reward (c : Config) (timestamp : Nat)
  | punish (c : Config) (timestamp : Nat)
  | setTriedSchema (triedSchema : String)
  | schemaSelectedToExecute (schemaName : String)

/-- Perform the call on the controller. -/
def perform (op : Op) (p : Pet) : Outcome :=
  match op with
  | .setMode a mode => setMode a mode p
  | .startLearning a commandStatement timestamp => startLearning a commandStatement timestamp p
  | .stopLearning a commandStatement timestamp => stopLearning a commandStatement timestamp p
  | .startExemplar commandStatement timestamp => startExemplar commandStatement timestamp p
  | .endExemplar a commandStatement timestamp => endExemplar a commandStatement timestamp p
  | .trySchema commandStatement timestamp => trySchema commandStatement timestamp p
  | .reward c timestamp => .ok (reward c timestamp p)
  | .punish c timestamp => .ok (punish c timestamp p)
  | .setTriedSchema triedSchema => .ok (setTriedSchema triedSchema p)
  | .schemaSelectedToExecute schemaName => .ok (schemaSelectedToExecute schemaName p)

/-- The object a call leaves behind: the call returned, or an exception left it and the caller
goes on with the object as the exception left it.  After an undefined call there is no
object to go on with. -/
def Outcome.after : Outcome → Option Pet
  | .ok p => some p
  | .thrown p => some p
  | .undefined => none

/-- Perform the calls in turn; `none` when one of them is undefined. -/
def run : List Op → Pet → Option Pet
  | [], p => some p
  | op :: ops, p =>
    match (perform op p).after with
    | some q => run ops q
    | none => none

/-- The property holds of the object a call leaves behind, when there is one. -/
def Outcome.All (P : Pet → Prop) : Outcome → Prop
  | .ok p => P p
  | .thrown p => P p
  | .undefined => True

/-- What a call does to the candidate-executed flag. -/
inductive FlagEffect where
  /-- The call writes false. -/
  | cleared
  /-- The call writes true. -/
  | set
  /-- The call does not write the flag. -/
  | kept
  deriving DecidableEq, Repr

/-- A `reward` or `punish` in this state is forwarded to the learning service: the mode is
LEARNING, the learning schema has a non-empty name and a trial has been proposed. -/
def rewardForwarded (p : Pet) : Prop :=
  p.mode = .LEARNING ∧ p.learningSchema.head? ≠ none ∧ p.learningSchema.head? ≠ some "" ∧
    p.triedSchema ≠ ""

instance (p : Pet) : Decidable (rewardForwarded p) := by
  unfold rewardForwarded; infer_instance

/-- The effect on the candidate-executed flag that the rule of the flag assigns to a call made
in the state `p`: `setTriedSchema` clears it; a `schemaSelectedToExecute` whose name is the
tried-schema name the controller holds at the call (the name of the last `setTriedSchema`, or
the empty name as long as none was made or once an entry into PLAYING has cleared it), a
`startExemplar` that opens a window, and a `reward` or `punish` that is forwarded to the
learning service set it; every other call, mode changes included, keeps it. -/
def Op.flagEffect (op : Op) (p : Pet) : FlagEffect :=
  match op with
  | .setTriedSchema _ => .cleared
  | .schemaSelectedToExecute schemaName => if p.triedSchema = schemaName then .set else .kept
  | .startExemplar commandStatement _ =>
    if p.mode = .LEARNING ∧ (commandStatement = [] ∨ commandStatement = p.learningSchema) then
      .set
    else .kept
  | .reward _ _ => if rewardForwarded p then .set else .kept
  | .punish _ _ => if rewardForwarded p then .set else .kept
  | _ => .kept

/-- The flag effects of the calls of a run, each judged in the state the call is made in. -/
def flagEffects : List Op → Pet → List FlagEffect
  | [], _ => []
  | op :: ops, p =>
    match (perform op p).after with
    | some q => op.flagEffect p :: flagEffects ops q
    | none => []

/-- The later of two effects that writes the flag. -/
def FlagEffect.andThen (earlier later : FlagEffect) : FlagEffect :=
  match later with
  | .kept => earlier
  | e => e

/-- The most recent effect of the list that writes the flag; `kept` when none does. -/
def lastWrite (effects : List FlagEffect) : FlagEffect :=
  effects.foldl FlagEffect.andThen .kept

/-- The members that `endExemplar` and `trySchema` never write. -/
def sameSession (p q : Pet) : Prop :=
  q.candidateSchemaExecuted = p.candidateSchemaExecuted ∧ q.mode = p.mode ∧
    q.learningSchema = p.learningSchema ∧ q.exemplarAvatarId = p.exemplarAvatarId

/-- The value of the flag after an effect, given the value before. -/
def FlagEffect.apply : FlagEffect → Bool → Bool
  | .cleared, _ => false
  | .set, _ => true
  | .kept, b => b

/-- The demonstration source is empty and, in PLAYING mode, so is the learning schema. -/
def playingIsClean (p : Pet) : Prop :=
  p.exemplarAvatarId = "" ∧ (p.mode = .PLAYING → p.learningSchema = [])

/-- A run on a fresh controller: a trial is proposed, then the controller is sent to PLAYING. -/
def proposeThenPlay : List Op :=
  [.startLearning emptyStore (.vector ["spin"]) 1, .setTriedSchema "candidate1",
   .setMode emptyStore .PLAYING]

/-- A run on a fresh controller: a trial is proposed, then a new learning session started. -/
def proposeThenRelearn : List Op :=
  [.startLearning emptyStore (.vector ["spin"]) 1, .setTriedSchema "candidate1",
   .startLearning emptyStore (.vector ["fetch"]) 2]

/-- A run on a fresh controller: a trial is proposed while learning, then rewarded. -/
def proposeThenReward : List Op :=
  [.startLearning emptyStore (.vector ["spin"]) 1, .setTriedSchema "candidate1",
   .reward unitRewards 5]

/-- A run on a fresh controller: a learning session is started, then the controller is sent
to SCAVENGER_HUNT without stopping the session. -/
def learnThenHunt : List Op :=
  [.startLearning emptyStore (.vector ["spin"]) 1, .setMode emptyStore .SCAVENGER_HUNT]

/-- The controller `rex` after the run `proposeThenPlay`. -/
def rexProposedThenPlaying : Pet :=
  { rex with startLearningSessionTimestamp := 1, candidateSchemaExecuted := false,
             trace := rex.trace
               ++ [.sendFeedback "pet1" "Rex entering \"Learning Mode\"",
                   .sendFeedback "pet1" "Rex entering \"Playing Mode\""] }

/-- The controller `rex` after `setMode(LEARNING)`: LEARNING mode, no learning schema. -/
def rexLearningUnnamed : Pet :=
  { rex with mode := .LEARNING,
             trace := rex.trace ++ [.sendFeedback "pet1" "Rex entering \"Learning Mode\""] }

/-- A run on a fresh controller: a trial is proposed, the controller is sent to PLAYING, which
clears the tried-schema name, and the proposed name is then confirmed. -/
def proposePlayConfirm : List Op :=
  [.startLearning emptyStore (.vector ["spin"]) 1, .setTriedSchema "candidate1",
   .setMode emptyStore .PLAYING, .schemaSelectedToExecute "candidate1"]

/-- The controller `rex` after the run `proposePlayConfirm`. -/
def rexProposedPlayedConfirmed : Pet :=
  { rex with startLearningSessionTimestamp := 1, candidateSchemaExecuted := false,
             trace := rex.trace
               ++ [.sendFeedback "pet1" "Rex entering \"Learning Mode\"",
                   .sendFeedback "pet1" "Rex entering \"Playing Mode\""] }

/-- A run on a fresh controller: `startLearning(["spin"], 1); startExemplar([], 4)`. -/
def learnSpinWithWindow : List Op :=
  [.startLearning emptyStore (.vector ["spin"]) 1, .startExemplar [] 4]

/-- The controller `rex` after the run `learnSpinWithWindow`: LEARNING mode, the schema `spin`
and a window open since 4. -/
def rexSpinWindow : Pet :=
  { rex with mode := .LEARNING, learningSchema := ["spin"],
             startLearningSessionTimestamp := 1, exemplarStartTimestamp := 4,
             trace := rex.trace ++ [.sendFeedback "pet1" "Rex entering \"Learning Mode\""] }

/-- A run on a fresh controller: `startLearning(["stand"], 1); startExemplar([], 4)`. -/
def learnStandWithWindow : List Op :=
  [.startLearning emptyStore (.vector ["stand"]) 1, .startExemplar [] 4]

/-- The controller `rex` after the run `learnStandWithWindow`: LEARNING mode, the schema
`stand` and a window open since 4. -/
def rexStandWindow : Pet :=
  { rex with mode := .LEARNING, learningSchema := ["stand"],
             startLearningSessionTimestamp := 1, exemplarStartTimestamp := 4,
             trace := rex.trace ++ [.sendFeedback "pet1" "Rex entering \"Learning Mode\""] }

/-- The controller `rex` after `setExemplarAvatarId("avatar42")` and
`startLearning(["spin"], 1)` against `avatar42Store`. -/
def rexLearningSpinFrom42 : Pet :=
  { rex with exemplarAvatarId := "avatar42", mode := .LEARNING, learningSchema := ["spin"],
             startLearningSessionTimestamp := 1,
             trace := rex.trace
               ++ [.isExemplarAvatar "avatar42" 7 true,
                   .sendFeedback "pet1" "Rex entering \"Learning Mode\""] }

/-- The controller `rexLearningFromGhost` with an exemplar window open since 4. -/
def rexGhostWindow : Pet :=
  { rexLearningFromGhost with exemplarStartTimestamp := 4 }

/-! ## Shared lemmas -/

theorem logReadsEmptyFront_iff (commandStatement : List String) (p : Pet) :
    logReadsEmptyFront commandStatement p ↔ commandStatement = [] ∧ p.learningSchema = [] := by
  unfold logReadsEmptyFront
  simp

theorem not_logReadsEmptyFront_of_schema (commandStatement : List String) (p : Pet)
    (h : p.learningSchema ≠ []) : ¬ logReadsEmptyFront commandStatement p :=
  fun hl => h hl.2

theorem not_logReadsEmptyFront_of_cons (commandStatement : List String) (p : Pet)
    (schemaName : String) (args : List String) (hs : p.learningSchema = schemaName :: args) :
    ¬ logReadsEmptyFront commandStatement p :=
  not_logReadsEmptyFront_of_schema commandStatement p (by rw [hs]; exact List.cons_ne_nil _ _)

theorem adjust_of_resolves (a : AtomSpace) (active : Bool) (p : Pet)
    (h : sourceResolves a p.exemplarAvatarId) :
    adjustIsExemplarAvatarPredicate a active p
      = .ok { p with trace := p.trace ++ avatarCalls a p.exemplarAvatarId active } := by
  unfold adjustIsExemplarAvatarPredicate avatarCalls
  by_cases h0 : p.exemplarAvatarId = ""
  · rw [if_neg (not_not.mpr h0), if_pos h0, List.append_nil]
  · have h1 : (a.getHandleSet p.exemplarAvatarId).length = 1 := h.resolve_left h0
    rw [if_pos h0, if_neg h0]
    simp [h1, Pet.emit]

theorem adjust_of_unresolved (a : AtomSpace) (active : Bool) (p : Pet)
    (h : ¬ sourceResolves a p.exemplarAvatarId) :
    adjustIsExemplarAvatarPredicate a active p = .thrown p := by
  unfold sourceResolves at h
  push_neg at h
  simp [adjustIsExemplarAvatarPredicate, h.1, h.2]

theorem setExemplarAvatarId_of_resolves (a : AtomSpace) (id : String) (p : Pet)
    (h : sourceResolves a p.exemplarAvatarId) (hn : sourceResolves a id) :
    setExemplarAvatarId a id p
      = .ok { p with exemplarAvatarId := id,
                     trace := p.trace ++ avatarCalls a p.exemplarAvatarId false
                                ++ avatarCalls a id true } := by
  unfold setExemplarAvatarId
  rw [adjust_of_resolves a false p h]
  simp only [Outcome.bind]
  rw [adjust_of_resolves a true _ hn]

theorem setMode_PLAYING_of_resolves (a : AtomSpace) (p : Pet)
    (h : sourceResolves a p.exemplarAvatarId) :
    setMode a .PLAYING p
      = .ok { p with mode := .PLAYING, exemplarAvatarId := "", learningSchema := [],
                     triedSchema := "",
                     exemplarStartTimestamp := UNDEFINED_TIMESTAMP,
                     exemplarEndTimestamp := UNDEFINED_TIMESTAMP,
                     trace := p.trace ++ avatarCalls a p.exemplarAvatarId false
                       ++ [.sendFeedback p.petId (p.petName ++ " entering \"Playing Mode\"")] } := by
  have hs := setExemplarAvatarId_of_resolves a "" { p with mode := .PLAYING } h (Or.inl rfl)
  simp [setMode, hs, Outcome.bind, Pet.emit, avatarCalls]

theorem setMode_PLAYING_of_unresolved (a : AtomSpace) (p : Pet)
    (h : ¬ sourceResolves a p.exemplarAvatarId) :
    setMode a .PLAYING p = .thrown { p with mode := .PLAYING } := by
  have hs := adjust_of_unresolved a false { p with mode := .PLAYING } h
  simp [setMode, setExemplarAvatarId, hs, Outcome.bind]

theorem foldl_spaceMaps (a : AtomSpace) (hs : List Handle) (p : Pet) :
    hs.foldl
        (fun p mapHandle =>
          if a.containsMap mapHandle then p.emit (.markMapAsPersistent mapHandle)
          else p.emit (.removeAtom mapHandle))
        p
      = { p with trace := p.trace ++ hs.map fun mapHandle =>
            if a.containsMap mapHandle then Event.markMapAsPersistent mapHandle
            else Event.removeAtom mapHandle } := by
  induction hs generalizing p with
  | nil => simp
  | cons h hs ih =>
    rw [List.foldl_cons, ih]
    by_cases hc : a.containsMap h = true <;> simp [hc, Pet.emit]

theorem updatePersistentSpaceMaps_eq (a : AtomSpace) (p : Pet) :
    updatePersistentSpaceMaps a p
      = { p with trace := p.trace
            ++ spaceMapCalls a p.exemplarStartTimestamp p.exemplarEndTimestamp } := by
  unfold updatePersistentSpaceMaps spaceMapCalls
  by_cases h1 : p.exemplarStartTimestamp = UNDEFINED_TIMESTAMP ∨
      p.exemplarEndTimestamp = UNDEFINED_TIMESTAMP
  · rw [if_pos h1, if_pos h1, List.append_nil]
  · rw [if_neg h1, if_neg h1]
    by_cases h2 : p.exemplarStartTimestamp > p.exemplarEndTimestamp
    · rw [if_pos h2, if_pos h2, List.append_nil]
    · rw [if_neg h2, if_neg h2, foldl_spaceMaps]

theorem spaceMapCalls_not_messages (a : AtomSpace) (lower upper : Nat) :
    (spaceMapCalls a lower upper).filter Event.toLearningService = [] ∧
    (spaceMapCalls a lower upper).filter Event.toFeedbackChannel = [] ∧
    (spaceMapCalls a lower upper).filter Event.toRuleEngine = [] := by
  unfold spaceMapCalls
  refine ⟨?_, ?_, ?_⟩ <;>
  · split
    · rfl
    · split
      · rfl
      · rw [List.filter_eq_nil_iff]
        intro e he
        rw [List.mem_map] at he
        obtain ⟨h, -, rfl⟩ := he
        split <;> simp [Event.toLearningService, Event.toFeedbackChannel, Event.toRuleEngine]

theorem endExemplar_of_open_window (a : AtomSpace) (commandStatement : List String) (t : Nat)
    (p : Pet) (schemaName : String) (args : List String)
    (hm : p.mode = .LEARNING) (hw : p.exemplarStartTimestamp ≠ UNDEFINED_TIMESTAMP)
    (hs : p.learningSchema = schemaName :: args)
    (hc : commandStatement = [] ∨ commandStatement = p.learningSchema) :
    endExemplar a commandStatement t p
      = .ok { p with
          exemplarStartTimestamp := UNDEFINED_TIMESTAMP,
          exemplarEndTimestamp := UNDEFINED_TIMESTAMP,
          trace := p.trace
            ++ [.behaviorEncoder schemaName p.exemplarStartTimestamp t p.exemplarAvatarId]
            ++ spaceMapCalls a p.exemplarStartTimestamp t
            ++ [.sendExemplar schemaName args p.ownerId p.exemplarAvatarId] } := by
  have hc' : ¬ (p.learningSchema ≠ commandStatement ∧ commandStatement.length > 0) := by
    rcases hc with h | h
    · simp [h]
    · simp [h]
  have hg : (!isInLearningMode p || p.exemplarStartTimestamp == UNDEFINED_TIMESTAMP) = false := by
    simp [isInLearningMode, hm, hw]
  unfold endExemplar
  rw [if_neg (not_logReadsEmptyFront_of_cons commandStatement p schemaName args hs), hg,
    if_neg Bool.false_ne_true, if_neg hc']
  simp [executeBehaviorEncoder, hs, Outcome.bind, updatePersistentSpaceMaps_eq, Pet.emit]

theorem construct_eq (a : AtomSpace) (petId petName ownerId : String)
    (startSession endSession : Nat) :
    Pet.construct a petId petName ownerId startSession endSession
      = .ok (Pet.fresh petId petName ownerId startSession endSession) := by
  simp [Pet.construct, setMode, setExemplarAvatarId, adjustIsExemplarAvatarPredicate,
    Outcome.bind, Pet.emit, Pet.fresh]

theorem startLearning_of_not_learning (a : AtomSpace) (commandStatement : SchemaArg)
    (t : Nat) (p : Pet) (hm : p.mode ≠ .LEARNING) (harg : commandStatement.read p ≠ []) :
    startLearning a commandStatement t p
      = .ok { p with learningSchema := commandStatement.read p,
                     startLearningSessionTimestamp := t,
                     mode := .LEARNING,
                     trace := p.trace
                       ++ [.sendFeedback p.petId (p.petName ++ " entering \"Learning Mode\"")] } := by
  simp [startLearning, isInLearningMode, hm, harg, setMode, Outcome.bind, Pet.emit]

theorem startLearning_of_empty (a : AtomSpace) (commandStatement : SchemaArg) (t : Nat)
    (p : Pet) (harg : commandStatement.read p = []) :
    startLearning a commandStatement t p = .undefined := by
  unfold startLearning
  rw [if_pos harg]

theorem startExemplar_of_learning (commandStatement : List String) (t : Nat) (p : Pet)
    (hlog : ¬ logReadsEmptyFront commandStatement p) (hm : p.mode = .LEARNING)
    (hc : commandStatement = [] ∨ commandStatement = p.learningSchema) :
    startExemplar commandStatement t p
      = .ok { p with candidateSchemaExecuted := true, exemplarStartTimestamp := t } := by
  have hc' : ¬ (p.learningSchema ≠ commandStatement ∧ commandStatement.length > 0) := by
    rcases hc with h | h
    · simp [h]
    · simp [h]
  have hg : (!isInLearningMode p) = false := by simp [isInLearningMode, hm]
  unfold startExemplar
  rw [if_neg hlog, hg, if_neg Bool.false_ne_true, if_neg hc']

theorem avatarCalls_not_messages (a : AtomSpace) (id : String) (active : Bool) :
    (avatarCalls a id active).filter Event.toLearningService = [] ∧
    (avatarCalls a id active).filter Event.toFeedbackChannel = [] ∧
    (avatarCalls a id active).filter Event.toRuleEngine = [] := by
  unfold avatarCalls
  refine ⟨?_, ?_, ?_⟩ <;>
  · split <;> simp [Event.toLearningService, Event.toFeedbackChannel, Event.toRuleEngine]

theorem stopLearning_of_match (a : AtomSpace) (t : Nat) (p : Pet) (schemaName : String)
    (args : List String) (hs : p.learningSchema = schemaName :: args)
    (h : sourceResolves a p.exemplarAvatarId) :
    stopLearning a (schemaName :: args) t p
      = .ok { p with
          mode := .PLAYING, exemplarAvatarId := "", learningSchema := [], triedSchema := "",
          exemplarStartTimestamp := UNDEFINED_TIMESTAMP,
          exemplarEndTimestamp := UNDEFINED_TIMESTAMP,
          endLearningSessionTimestamp := t,
          trace := p.trace
            ++ [.trickSession schemaName p.startLearningSessionTimestamp t,
                .sendStopLearning schemaName args]
            ++ avatarCalls a p.exemplarAvatarId false
            ++ [.sendFeedback p.petId (p.petName ++ " entering \"Playing Mode\"")] } := by
  cases p
  simp only at hs h
  subst hs
  simp [stopLearning, setMode_PLAYING_of_resolves, h, Pet.emit]

theorem stopLearning_of_unresolved (a : AtomSpace) (t : Nat) (p : Pet) (schemaName : String)
    (args : List String) (hs : p.learningSchema = schemaName :: args)
    (h : ¬ sourceResolves a p.exemplarAvatarId) :
    stopLearning a (schemaName :: args) t p
      = .thrown { p with
          mode := .PLAYING,
          exemplarStartTimestamp := UNDEFINED_TIMESTAMP,
          exemplarEndTimestamp := UNDEFINED_TIMESTAMP,
          endLearningSessionTimestamp := t,
          trace := p.trace
            ++ [.trickSession schemaName p.startLearningSessionTimestamp t,
                .sendStopLearning schemaName args] } := by
  cases p
  simp only at hs h
  subst hs
  simp [stopLearning, setMode_PLAYING_of_unresolved, h, Pet.emit]

theorem sourceResolves_empty (a : AtomSpace) : sourceResolves a "" := Or.inl rfl

theorem startLearning_of_learning (a : AtomSpace) (p : Pet) (oldName : String)
    (oldArgs s : List String) (t : Nat)
    (hm : p.mode = .LEARNING) (hold : p.learningSchema = oldName :: oldArgs)
    (hres : sourceResolves a p.exemplarAvatarId) (hnew : s ≠ []) :
    startLearning a (.vector s) t p
      = .ok { p with
          mode := .LEARNING, learningSchema := s, triedSchema := "",
          exemplarStartTimestamp := UNDEFINED_TIMESTAMP,
          exemplarEndTimestamp := UNDEFINED_TIMESTAMP,
          startLearningSessionTimestamp := t,
          endLearningSessionTimestamp := t,
          trace := p.trace
            ++ ([.trickSession oldName p.startLearningSessionTimestamp t,
                 .sendStopLearning oldName oldArgs]
              ++ avatarCalls a p.exemplarAvatarId false
              ++ [.sendFeedback p.petId (p.petName ++ " entering \"Playing Mode\"")]
              ++ avatarCalls a p.exemplarAvatarId true
              ++ [.sendFeedback p.petId (p.petName ++ " entering \"Learning Mode\"")]) } := by
  cases p
  simp only at hm hold hres
  subst hm hold
  simp [startLearning, SchemaArg.read, hnew, isInLearningMode, stopLearning_of_match,
    setExemplarAvatarId_of_resolves, sourceResolves_empty, hres, Outcome.bind, setMode, Pet.emit,
    avatarCalls]

theorem startLearning_of_learning_aliased (a : AtomSpace) (p : Pet) (oldName : String)
    (oldArgs : List String) (t : Nat)
    (hm : p.mode = .LEARNING) (hold : p.learningSchema = oldName :: oldArgs)
    (hres : sourceResolves a p.exemplarAvatarId) :
    startLearning a .getLearningSchema t p
      = .ok { p with
          mode := .LEARNING, learningSchema := [], triedSchema := "",
          exemplarStartTimestamp := UNDEFINED_TIMESTAMP,
          exemplarEndTimestamp := UNDEFINED_TIMESTAMP,
          startLearningSessionTimestamp := t,
          endLearningSessionTimestamp := t,
          trace := p.trace
            ++ ([.trickSession oldName p.startLearningSessionTimestamp t,
                 .sendStopLearning oldName oldArgs]
              ++ avatarCalls a p.exemplarAvatarId false
              ++ [.sendFeedback p.petId (p.petName ++ " entering \"Playing Mode\"")]
              ++ avatarCalls a p.exemplarAvatarId true
              ++ [.sendFeedback p.petId (p.petName ++ " entering \"Learning Mode\"")]) } := by
  cases p
  simp only at hm hold hres
  subst hm hold
  simp [startLearning, SchemaArg.read, isInLearningMode, stopLearning_of_match,
    setExemplarAvatarId_of_resolves, sourceResolves_empty, hres, Outcome.bind, setMode, Pet.emit,
    avatarCalls]

theorem setExemplarAvatarId_of_old_unresolved (a : AtomSpace) (id : String) (p : Pet)
    (h : ¬ sourceResolves a p.exemplarAvatarId) :
    setExemplarAvatarId a id p = .thrown p := by
  unfold setExemplarAvatarId
  rw [adjust_of_unresolved a false p h]
  rfl

theorem setExemplarAvatarId_of_new_unresolved (a : AtomSpace) (id : String) (p : Pet)
    (h : sourceResolves a p.exemplarAvatarId) (hn : ¬ sourceResolves a id) :
    setExemplarAvatarId a id p
      = .thrown { p with exemplarAvatarId := id,
                         trace := p.trace ++ avatarCalls a p.exemplarAvatarId false } := by
  unfold setExemplarAvatarId
  rw [adjust_of_resolves a false p h]
  simp only [Outcome.bind]
  rw [adjust_of_unresolved a true _ hn]

theorem setExemplarAvatarId_ok_resolves (a : AtomSpace) (id : String) (p q : Pet)
    (h : setExemplarAvatarId a id p = .ok q) :
    sourceResolves a p.exemplarAvatarId ∧ sourceResolves a id := by
  by_cases h1 : sourceResolves a p.exemplarAvatarId
  · by_cases h2 : sourceResolves a id
    · exact ⟨h1, h2⟩
    · rw [setExemplarAvatarId_of_new_unresolved a id p h1 h2] at h
      cases h
  · rw [setExemplarAvatarId_of_old_unresolved a id p h1] at h
    cases h

theorem avatarCalls_assertsActive (a : AtomSpace) (id : String) :
    (avatarCalls a id false).filter Event.assertsActive = [] ∧
    ((avatarCalls a id true).filter Event.assertsActive).length ≤ 1 := by
  unfold avatarCalls
  constructor <;> split <;> simp [Event.assertsActive]

theorem endExemplar_of_rejected (a : AtomSpace) (commandStatement : List String)
    (t : Nat) (p : Pet) (hlog : ¬ logReadsEmptyFront commandStatement p)
    (h : p.mode ≠ .LEARNING ∨ p.exemplarStartTimestamp = UNDEFINED_TIMESTAMP ∨
      (commandStatement ≠ [] ∧ commandStatement ≠ p.learningSchema)) :
    endExemplar a commandStatement t p = .ok p := by
  unfold endExemplar
  rw [if_neg hlog]
  by_cases hg : (!isInLearningMode p || p.exemplarStartTimestamp == UNDEFINED_TIMESTAMP) = true
  · rw [if_pos hg]
  · rw [if_neg hg]
    have hm : p.mode = .LEARNING ∧ p.exemplarStartTimestamp ≠ UNDEFINED_TIMESTAMP := by
      simpa [isInLearningMode] using hg
    rcases h with h | h | h
    · exact absurd hm.1 h
    · exact absurd h hm.2
    · have hc : p.learningSchema ≠ commandStatement ∧ commandStatement.length > 0 :=
        ⟨fun e => h.2 e.symm, List.length_pos.mpr h.1⟩
      rw [if_pos hc]

theorem endExemplar_of_log (a : AtomSpace) (commandStatement : List String) (t : Nat)
    (p : Pet) (hlog : logReadsEmptyFront commandStatement p) :
    endExemplar a commandStatement t p = .undefined := by
  unfold endExemplar
  rw [if_pos hlog]

theorem endExemplar_of_empty_schema (a : AtomSpace) (commandStatement : List String)
    (t : Nat) (p : Pet) (hs : p.learningSchema = [])
    (hc : commandStatement = [] ∨ commandStatement = p.learningSchema) :
    endExemplar a commandStatement t p = .undefined := by
  have hc' : commandStatement = [] := hc.elim id fun h => h.trans hs
  unfold endExemplar
  rw [if_pos ((logReadsEmptyFront_iff commandStatement p).mpr ⟨hc', hs⟩)]

theorem Outcome.All_bind {P : Pet → Prop} {o : Outcome} {f : Pet → Outcome}
    (ho : o.All P) (hf : ∀ p, P p → (f p).All P) : (o.bind f).All P := by
  cases o with
  | ok p => exact hf p ho
  | thrown p => exact ho
  | undefined => trivial

theorem Outcome.All_after {P : Pet → Prop} {o : Outcome} {q : Pet}
    (ho : o.All P) (ha : o.after = some q) : P q := by
  cases o with
  | ok p => cases ha; exact ho
  | thrown p => cases ha; exact ho
  | undefined => cases ha

theorem adjust_keeps_flag (a : AtomSpace) (active : Bool) (b : Bool) (p : Pet)
    (h : p.candidateSchemaExecuted = b) :
    (adjustIsExemplarAvatarPredicate a active p).All fun q => q.candidateSchemaExecuted = b := by
  unfold adjustIsExemplarAvatarPredicate
  split
  · simp only
    split
    · exact h
    · exact h
  · exact h

theorem setExemplarAvatarId_keeps_flag (a : AtomSpace) (id : String) (b : Bool) (p : Pet)
    (h : p.candidateSchemaExecuted = b) :
    (setExemplarAvatarId a id p).All fun q => q.candidateSchemaExecuted = b :=
  Outcome.All_bind (adjust_keeps_flag a false b p h)
    fun q hq => adjust_keeps_flag a true b { q with exemplarAvatarId := id } hq

theorem setMode_keeps_flag (a : AtomSpace) (mode : PetMode) (b : Bool) (p : Pet)
    (h : p.candidateSchemaExecuted = b) :
    (setMode a mode p).All fun q => q.candidateSchemaExecuted = b := by
  cases mode with
  | LEARNING => exact h
  | PLAYING =>
    exact Outcome.All_bind
      (setExemplarAvatarId_keeps_flag a "" b { p with mode := .PLAYING } h)
      fun q hq => hq
  | SCAVENGER_HUNT => exact h

theorem stopLearning_keeps_flag (a : AtomSpace) (commandStatement : List String) (t : Nat)
    (b : Bool) (p : Pet) (h : p.candidateSchemaExecuted = b) :
    (stopLearning a commandStatement t p).All fun q => q.candidateSchemaExecuted = b := by
  unfold stopLearning
  simp only
  split
  · trivial
  · split
    · exact h
    · split
      · trivial
      · exact setMode_keeps_flag a .PLAYING b _ h

theorem startLearning_keeps_flag (a : AtomSpace) (commandStatement : SchemaArg) (t : Nat)
    (b : Bool) (p : Pet) (h : p.candidateSchemaExecuted = b) :
    (startLearning a commandStatement t p).All fun q => q.candidateSchemaExecuted = b := by
  unfold startLearning
  split
  · trivial
  · refine Outcome.All_bind ?_ fun q hq => setMode_keeps_flag a .LEARNING b _ hq
    split
    · split
      · trivial
      · exact Outcome.All_bind (stopLearning_keeps_flag a p.learningSchema t b p h)
          fun q hq => setExemplarAvatarId_keeps_flag a p.exemplarAvatarId b q hq
    · exact h

theorem endExemplar_sameSession (a : AtomSpace) (commandStatement : List String) (t : Nat)
    (p : Pet) : (endExemplar a commandStatement t p).All (sameSession p) := by
  unfold endExemplar
  split
  · trivial
  · split
    · exact ⟨rfl, rfl, rfl, rfl⟩
    · split
      · exact ⟨rfl, rfl, rfl, rfl⟩
      · simp only [executeBehaviorEncoder]
        cases hs : p.learningSchema with
        | nil => simp [Outcome.bind, Outcome.All]
        | cons name args =>
          simp [Outcome.bind, Outcome.All, updatePersistentSpaceMaps_eq, Pet.emit, hs,
            sameSession]

theorem trySchema_sameSession (commandStatement : List String) (t : Nat) (p : Pet) :
    (trySchema commandStatement t p).All (sameSession p) := by
  unfold trySchema
  split
  · trivial
  · split
    · exact ⟨rfl, rfl, rfl, rfl⟩
    · split <;> split <;> first | exact ⟨rfl, rfl, rfl, rfl⟩ | trivial

theorem startExemplar_eq (commandStatement : List String) (t : Nat) (p : Pet) :
    startExemplar commandStatement t p
      = (if logReadsEmptyFront commandStatement p then
          .undefined
        else if p.mode = .LEARNING ∧
            (commandStatement = [] ∨ commandStatement = p.learningSchema) then
          .ok { p with candidateSchemaExecuted := true, exemplarStartTimestamp := t }
        else .ok p) := by
  by_cases hlog : logReadsEmptyFront commandStatement p
  · rw [if_pos hlog]
    unfold startExemplar
    rw [if_pos hlog]
  · rw [if_neg hlog]
    by_cases hm : p.mode = .LEARNING
    · by_cases hc : commandStatement = [] ∨ commandStatement = p.learningSchema
      · rw [if_pos ⟨hm, hc⟩]
        exact startExemplar_of_learning commandStatement t p hlog hm hc
      · rw [if_neg (fun h => hc h.2)]
        have hc' : p.learningSchema ≠ commandStatement ∧ commandStatement.length > 0 := by
          push_neg at hc
          exact ⟨fun e => hc.2 e.symm, List.length_pos.mpr hc.1⟩
        have hg : (!isInLearningMode p) = false := by simp [isInLearningMode, hm]
        unfold startExemplar
        rw [if_neg hlog, hg, if_neg Bool.false_ne_true, if_pos hc']
    · rw [if_neg (fun h => hm h.1)]
      have hg : (!isInLearningMode p) = true := by simp [isInLearningMode, hm]
      unfold startExemplar
      rw [if_neg hlog, if_pos hg]

theorem reward_flag (c : Config) (t : Nat) (p : Pet) :
    (reward c t p).candidateSchemaExecuted
      = (if rewardForwarded p then true else p.candidateSchemaExecuted) := by
  have key : ∀ l, p.learningSchema = l →
      (reward c t p).candidateSchemaExecuted
        = (if rewardForwarded p then true else p.candidateSchemaExecuted) := by
    intro l hs
    unfold reward rewardForwarded
    by_cases hm : p.mode = .LEARNING
    · cases l with
      | nil => simp [isInLearningMode, hm, hs]
      | cons name args =>
        by_cases hn : name = ""
        · simp [isInLearningMode, hm, hs, hn]
        · by_cases ht : p.triedSchema = ""
          · simp [isInLearningMode, hm, hs, hn, ht]
          · simp [isInLearningMode, hm, hs, hn, ht, Pet.emit]
    · simp [isInLearningMode, hm, Pet.emit]
  exact key _ rfl

theorem punish_flag (c : Config) (t : Nat) (p : Pet) :
    (punish c t p).candidateSchemaExecuted
      = (if rewardForwarded p then true else p.candidateSchemaExecuted) := by
  have key : ∀ l, p.learningSchema = l →
      (punish c t p).candidateSchemaExecuted
        = (if rewardForwarded p then true else p.candidateSchemaExecuted) := by
    intro l hs
    unfold punish rewardForwarded
    by_cases hm : p.mode = .LEARNING
    · cases l with
      | nil => simp [isInLearningMode, hm, hs]
      | cons name args =>
        by_cases hn : name = ""
        · simp [isInLearningMode, hm, hs, hn]
        · by_cases ht : p.triedSchema = ""
          · simp [isInLearningMode, hm, hs, hn, ht]
          · simp [isInLearningMode, hm, hs, hn, ht, Pet.emit]
    · simp [isInLearningMode, hm, Pet.emit]
  exact key _ rfl

theorem perform_flag (op : Op) (p q : Pet) (h : (perform op p).after = some q) :
    q.candidateSchemaExecuted = (op.flagEffect p).apply p.candidateSchemaExecuted := by
  cases op with
  | setMode a mode => exact Outcome.All_after (setMode_keeps_flag a mode _ p rfl) h
  | startLearning a cs t => exact Outcome.All_after (startLearning_keeps_flag a cs t _ p rfl) h
  | stopLearning a cs t => exact Outcome.All_after (stopLearning_keeps_flag a cs t _ p rfl) h
  | endExemplar a cs t => exact (Outcome.All_after (endExemplar_sameSession a cs t p) h).1
  | trySchema cs t => exact (Outcome.All_after (trySchema_sameSession cs t p) h).1
  | startExemplar cs t =>
    simp only [perform] at h
    rw [startExemplar_eq] at h
    by_cases hlog : logReadsEmptyFront cs p
    · rw [if_pos hlog] at h
      cases h
    · rw [if_neg hlog] at h
      simp only [Op.flagEffect]
      by_cases hc : p.mode = .LEARNING ∧ (cs = [] ∨ cs = p.learningSchema)
      · rw [if_pos hc] at h
        simp only [Outcome.after, Option.some.injEq] at h
        subst h
        rw [if_pos hc]; rfl
      · rw [if_neg hc] at h
        simp only [Outcome.after, Option.some.injEq] at h
        subst h
        rw [if_neg hc]; rfl
  | reward c t =>
    simp only [perform, Outcome.after, Option.some.injEq] at h
    subst h
    rw [reward_flag]
    simp only [Op.flagEffect]
    by_cases hc : rewardForwarded p
    · rw [if_pos hc, if_pos hc]; rfl
    · rw [if_neg hc, if_neg hc]; rfl
  | punish c t =>
    simp only [perform, Outcome.after, Option.some.injEq] at h
    subst h
    rw [punish_flag]
    simp only [Op.flagEffect]
    by_cases hc : rewardForwarded p
    · rw [if_pos hc, if_pos hc]; rfl
    · rw [if_neg hc, if_neg hc]; rfl
  | setTriedSchema n =>
    simp only [perform, Outcome.after, Option.some.injEq] at h
    subst h
    rfl
  | schemaSelectedToExecute n =>
    simp only [perform, Outcome.after, Option.some.injEq] at h
    subst h
    simp only [schemaSelectedToExecute, Op.flagEffect]
    by_cases hc : p.triedSchema = n
    · rw [if_pos hc, if_pos hc]; rfl
    · rw [if_neg hc, if_neg hc]; rfl

theorem FlagEffect.apply_andThen (earlier later : FlagEffect) (b : Bool) :
    (earlier.andThen later).apply b = later.apply (earlier.apply b) := by
  cases later <;> rfl

theorem run_flag (ops : List Op) (p q : Pet) (last : FlagEffect) (b : Bool)
    (h : run ops p = some q) (hl : last.apply b = p.candidateSchemaExecuted) :
    ((flagEffects ops p).foldl FlagEffect.andThen last).apply b = q.candidateSchemaExecuted := by
  induction ops generalizing p last with
  | nil =>
    simp only [run, Option.some.injEq] at h
    subst h
    exact hl
  | cons op ops ih =>
    unfold run at h
    unfold flagEffects
    cases hp : (perform op p).after with
    | none => rw [hp] at h; cases h
    | some p1 =>
      rw [hp] at h
      simp only [List.foldl_cons]
      apply ih p1 _ h
      rw [FlagEffect.apply_andThen, hl, perform_flag op p p1 hp]

theorem stopLearning_of_mismatch (a : AtomSpace) (commandStatement : List String) (t : Nat)
    (p : Pet) (harg : commandStatement ≠ []) (hne : p.learningSchema ≠ commandStatement) :
    stopLearning a commandStatement t p
      = .ok { p with exemplarStartTimestamp := UNDEFINED_TIMESTAMP,
                     exemplarEndTimestamp := UNDEFINED_TIMESTAMP } := by
  unfold stopLearning
  simp [harg, hne]

theorem stopLearning_of_empty (a : AtomSpace) (t : Nat) (p : Pet) :
    stopLearning a [] t p = .undefined := by
  unfold stopLearning
  simp

theorem startLearning_of_learning_empty (a : AtomSpace) (commandStatement : SchemaArg)
    (t : Nat) (p : Pet) (hm : p.mode = .LEARNING) (hs : p.learningSchema = []) :
    startLearning a commandStatement t p = .undefined := by
  have hl : isInLearningMode p = true := by simp [isInLearningMode, hm]
  unfold startLearning
  by_cases harg : commandStatement.read p = []
  · rw [if_pos harg]
  · rw [if_neg harg, if_pos hl, if_pos hs]
    rfl

theorem reward_frame (c : Config) (t : Nat) (p : Pet) :
    (reward c t p).mode = p.mode ∧ (reward c t p).learningSchema = p.learningSchema ∧
      (reward c t p).exemplarAvatarId = p.exemplarAvatarId := by
  unfold reward
  simp only
  split
  · split
    · exact ⟨rfl, rfl, rfl⟩
    · split <;> exact ⟨rfl, rfl, rfl⟩
  · exact ⟨rfl, rfl, rfl⟩

theorem punish_frame (c : Config) (t : Nat) (p : Pet) :
    (punish c t p).mode = p.mode ∧ (punish c t p).learningSchema = p.learningSchema ∧
      (punish c t p).exemplarAvatarId = p.exemplarAvatarId := by
  unfold punish
  simp only
  split
  · split
    · exact ⟨rfl, rfl, rfl⟩
    · split <;> exact ⟨rfl, rfl, rfl⟩
  · exact ⟨rfl, rfl, rfl⟩

theorem playingIsClean_of_frame (p q : Pet) (hp : playingIsClean p)
    (hm : q.mode = p.mode) (hs : q.learningSchema = p.learningSchema)
    (hi : q.exemplarAvatarId = p.exemplarAvatarId) : playingIsClean q :=
  ⟨hi.trans hp.1, fun h => hs.trans (hp.2 (hm ▸ h))⟩

theorem perform_playingIsClean (op : Op) (p q : Pet) (hp : playingIsClean p)
    (h : (perform op p).after = some q) : playingIsClean q := by
  cases op with
  | setMode a mode =>
    cases mode with
    | LEARNING =>
      simp only [perform, setMode, Outcome.after, Option.some.injEq] at h
      subst h
      exact ⟨hp.1, fun hm => by cases hm⟩
    | PLAYING =>
      simp only [perform] at h
      rw [setMode_PLAYING_of_resolves a p (Or.inl hp.1)] at h
      simp only [Outcome.after, Option.some.injEq] at h
      subst h
      exact ⟨rfl, fun _ => rfl⟩
    | SCAVENGER_HUNT =>
      simp only [perform, setMode, Outcome.after, Option.some.injEq] at h
      subst h
      exact ⟨hp.1, fun hm => by cases hm⟩
  | startLearning a cs t =>
    simp only [perform] at h
    by_cases harg : cs.read p = []
    · rw [startLearning_of_empty a cs t p harg] at h
      cases h
    · by_cases hm : p.mode = .LEARNING
      · cases hs : p.learningSchema with
        | nil =>
          rw [startLearning_of_learning_empty a cs t p hm hs] at h
          cases h
        | cons name args =>
          cases cs with
          | vector s =>
            rw [startLearning_of_learning a p name args s t hm hs (Or.inl hp.1) harg] at h
            simp only [Outcome.after, Option.some.injEq] at h
            subst h
            exact ⟨hp.1, fun hm => by cases hm⟩
          | getLearningSchema =>
            rw [startLearning_of_learning_aliased a p name args t hm hs (Or.inl hp.1)] at h
            simp only [Outcome.after, Option.some.injEq] at h
            subst h
            exact ⟨hp.1, fun hm => by cases hm⟩
      · rw [startLearning_of_not_learning a cs t p hm harg] at h
        simp only [Outcome.after, Option.some.injEq] at h
        subst h
        exact ⟨hp.1, fun hm => by cases hm⟩
  | stopLearning a cs t =>
    simp only [perform] at h
    by_cases harg : cs = []
    · subst harg
      rw [stopLearning_of_empty a t p] at h
      cases h
    · by_cases hc : p.learningSchema = cs
      · subst hc
        cases hs : p.learningSchema with
        | nil => exact absurd hs harg
        | cons name args =>
          rw [hs, stopLearning_of_match a t p name args hs (Or.inl hp.1)] at h
          simp only [Outcome.after, Option.some.injEq] at h
          subst h
          exact ⟨rfl, fun _ => rfl⟩
      · rw [stopLearning_of_mismatch a cs t p harg hc] at h
        simp only [Outcome.after, Option.some.injEq] at h
        subst h
        exact playingIsClean_of_frame p _ hp rfl rfl rfl
  | startExemplar cs t =>
    simp only [perform] at h
    rw [startExemplar_eq] at h
    split at h
    · cases h
    · split at h
      · simp only [Outcome.after, Option.some.injEq] at h
        subst h
        exact playingIsClean_of_frame p _ hp rfl rfl rfl
      · simp only [Outcome.after, Option.some.injEq] at h
        subst h
        exact hp
  | endExemplar a cs t =>
    obtain ⟨-, h1, h2, h3⟩ := Outcome.All_after (endExemplar_sameSession a cs t p) h
    exact playingIsClean_of_frame p q hp h1 h2 h3
  | trySchema cs t =>
    obtain ⟨-, h1, h2, h3⟩ := Outcome.All_after (trySchema_sameSession cs t p) h
    exact playingIsClean_of_frame p q hp h1 h2 h3
  | reward c t =>
    simp only [perform, Outcome.after, Option.some.injEq] at h
    subst h
    obtain ⟨h1, h2, h3⟩ := reward_frame c t p
    exact playingIsClean_of_frame p _ hp h1 h2 h3
  | punish c t =>
    simp only [perform, Outcome.after, Option.some.injEq] at h
    subst h
    obtain ⟨h1, h2, h3⟩ := punish_frame c t p
    exact playingIsClean_of_frame p _ hp h1 h2 h3
  | setTriedSchema n =>
    simp only [perform, Outcome.after, Option.some.injEq] at h
    subst h
    exact playingIsClean_of_frame p _ hp rfl rfl rfl
  | schemaSelectedToExecute n =>
    simp only [perform, Outcome.after, Option.some.injEq] at h
    subst h
    unfold schemaSelectedToExecute
    split
    · exact playingIsClean_of_frame p _ hp rfl rfl rfl
    · exact hp

theorem run_playingIsClean (ops : List Op) (p q : Pet) (hp : playingIsClean p)
    (h : run ops p = some q) : playingIsClean q := by
  induction ops generalizing p with
  | nil =>
    simp only [run, Option.some.injEq] at h
    subst h
    exact hp
  | cons op ops ih =>
    unfold run at h
    cases hp1 : (perform op p).after with
    | none => rw [hp1] at h; cases h
    | some p1 =>
      rw [hp1] at h
      exact ih p1 (perform_playingIsClean op p p1 hp hp1) h

theorem not_sourceResolves_iff (a : AtomSpace) (id : String) :
    ¬ sourceResolves a id ↔ id ≠ "" ∧ (a.getHandleSet id).length ≠ 1 := by
  unfold sourceResolves
  push_neg
  rfl

theorem spaceMapCalls_of_end_before_start (a : AtomSpace) (lower upper : Nat)
    (h : upper < lower) : spaceMapCalls a lower upper = [] := by
  unfold spaceMapCalls
  by_cases h1 : lower = UNDEFINED_TIMESTAMP ∨ upper = UNDEFINED_TIMESTAMP
  · rw [if_pos h1]
  · rw [if_neg h1, if_pos h]

theorem updatePersistentSpaceMaps_of_end_before_start (a : AtomSpace) (p : Pet)
    (h : p.exemplarEndTimestamp < p.exemplarStartTimestamp) :
    updatePersistentSpaceMaps a p = p := by
  rw [updatePersistentSpaceMaps_eq, spaceMapCalls_of_end_before_start a _ _ h,
    List.append_nil]

theorem endExemplar_of_end_before_start (a : AtomSpace) (commandStatement : List String)
    (t : Nat) (p : Pet) (schemaName : String) (args : List String)
    (hm : p.mode = .LEARNING) (hw : p.exemplarStartTimestamp ≠ UNDEFINED_TIMESTAMP)
    (hs : p.learningSchema = schemaName :: args)
    (hc : commandStatement = [] ∨ commandStatement = p.learningSchema)
    (ht : t < p.exemplarStartTimestamp) :
    endExemplar a commandStatement t p
      = .ok { p with
          exemplarStartTimestamp := UNDEFINED_TIMESTAMP,
          exemplarEndTimestamp := UNDEFINED_TIMESTAMP,
          trace := p.trace
            ++ [.behaviorEncoder schemaName p.exemplarStartTimestamp t p.exemplarAvatarId,
                .sendExemplar schemaName args p.ownerId p.exemplarAvatarId] } := by
  rw [endExemplar_of_open_window a commandStatement t p schemaName args hm hw hs hc,
    spaceMapCalls_of_end_before_start a _ _ ht]
  simp

/-! ## The claims -/

/-- C1 (as amended): in every controller state whose demonstration source is empty or resolves
to exactly one store node, `setMode(PLAYING)` returns normally and immediately afterwards the
mode is PLAYING, the learning schema is empty, the tried-schema name is empty, both
exemplar-window timestamps are undefined and the demonstration-source id is empty. -/
theorem setMode_PLAYING_clears_session (a : AtomSpace) (p : Pet)
    (h : sourceResolves a p.exemplarAvatarId) :
    ∃ q, setMode a .PLAYING p = .ok q ∧ q.mode = .PLAYING ∧ q.learningSchema = [] ∧
      q.triedSchema = "" ∧ q.exemplarStartTimestamp = UNDEFINED_TIMESTAMP ∧
      q.exemplarEndTimestamp = UNDEFINED_TIMESTAMP ∧ q.exemplarAvatarId = "" :=
  ⟨_, setMode_PLAYING_of_resolves a p h, rfl, rfl, rfl, rfl, rfl, rfl⟩

/-- Instance of `setMode_PLAYING_clears_session`: the controller learning `spin` from
`avatar42`, which the store resolves. -/
theorem setMode_PLAYING_clears_session_witness :
    sourceResolves avatar42Store rexLearningFromAvatar42.exemplarAvatarId ∧
    ∃ q, setMode avatar42Store .PLAYING rexLearningFromAvatar42 = .ok q ∧
      q.mode = .PLAYING ∧ q.learningSchema = [] ∧
      q.triedSchema = "" ∧ q.exemplarStartTimestamp = UNDEFINED_TIMESTAMP ∧
      q.exemplarEndTimestamp = UNDEFINED_TIMESTAMP ∧ q.exemplarAvatarId = "" :=
  ⟨by decide, setMode_PLAYING_clears_session avatar42Store rexLearningFromAvatar42 (by decide)⟩

/-- C1 fails as stated: a freshly constructed controller on which `setExemplarAvatarId("ghost")`
failed (no node is named `ghost`) and `startLearning(["spin"], 1)` was called is a reachable
state; `setMode(PLAYING)` then leaves by the exception of
`adjustIsExemplarAvatarPredicate`, and right after the call the learning schema is still
`["spin"]` and the demonstration source still `ghost`. -/
theorem setMode_PLAYING_unresolved_source_keeps_session :
    Pet.construct emptyStore "pet1" "Rex" "owner1" 0 0 = .ok rex ∧
    setExemplarAvatarId emptyStore "ghost" rex = .thrown { rex with exemplarAvatarId := "ghost" } ∧
    startLearning emptyStore (.vector ["spin"]) 1 { rex with exemplarAvatarId := "ghost" }
      = .ok rexLearningFromGhost ∧
    setMode emptyStore .PLAYING rexLearningFromGhost
      = .thrown { rexLearningFromGhost with mode := .PLAYING } ∧
    ({ rexLearningFromGhost with mode := .PLAYING } : Pet).learningSchema = ["spin"] ∧
    ({ rexLearningFromGhost with mode := .PLAYING } : Pet).exemplarAvatarId = "ghost" := by
  decide

/-- C2: `isExemplarInProgress()` is true exactly when the mode is LEARNING, the window start
is not the undefined sentinel and the window end is the undefined sentinel.  It is a
function of the state alone and returns only the boolean. -/
theorem isExemplarInProgress_iff (p : Pet) :
    isExemplarInProgress p = true ↔
      p.mode = .LEARNING ∧ p.exemplarStartTimestamp ≠ UNDEFINED_TIMESTAMP ∧
        p.exemplarEndTimestamp = UNDEFINED_TIMESTAMP := by
  simp [isExemplarInProgress, isInLearningMode, and_assoc]

/-- C3: with a non-empty learning schema and the candidate-executed flag true, and schema
arguments that pass the mismatch check, the sequence `trySchema; setTriedSchema(n); trySchema`
returns normally; the first call issues exactly one call, the TrySchema message for the
learning schema, and the second issues exactly one call, the forced re-execution
`tryExecuteSchema` of the rule engine, and no TrySchema message. -/
theorem trySchema_twice_forces_reexecution (p : Pet) (schemaName n : String)
    (args cs1 cs2 : List String) (t1 t2 : Nat)
    (hs : p.learningSchema = schemaName :: args)
    (he : p.candidateSchemaExecuted = true)
    (h1 : ¬ (p.learningSchema ≠ cs1 ∧ cs1.length > 0))
    (h2 : ¬ (p.learningSchema ≠ cs2 ∧ cs2.length > 0)) :
    ∃ p1 p3, trySchema cs1 t1 p = .ok p1 ∧
      p1.trace = p.trace ++ [.sendTrySchema schemaName args] ∧
      (setTriedSchema n p1).trace = p1.trace ∧
      trySchema cs2 t2 (setTriedSchema n p1) = .ok p3 ∧
      p3.trace = p1.trace ++ [.tryExecuteSchema schemaName] := by
  refine ⟨p.emit (.sendTrySchema schemaName args),
    (setTriedSchema n (p.emit (.sendTrySchema schemaName args))).emit
      (.tryExecuteSchema schemaName), ?_, rfl, rfl, ?_, rfl⟩
  · unfold trySchema
    rw [if_neg (not_logReadsEmptyFront_of_cons cs1 p schemaName args hs), if_neg h1, if_pos he,
      hs]
  · have h2' : ¬ ((setTriedSchema n (p.emit (.sendTrySchema schemaName args))).learningSchema ≠ cs2
        ∧ cs2.length > 0) := h2
    have hs' : (setTriedSchema n (p.emit (.sendTrySchema schemaName args))).learningSchema
        = schemaName :: args := hs
    unfold trySchema
    rw [if_neg (not_logReadsEmptyFront_of_cons cs2 _ schemaName args hs'), if_neg h2', hs']
    simp [setTriedSchema]

/-- Instance of `trySchema_twice_forces_reexecution`: learning `fetch ball`, first call without
arguments, second call with the full schema. -/
theorem trySchema_twice_forces_reexecution_witness :
    ∃ p1 p3, trySchema [] 5 rexLearningFetch = .ok p1 ∧
      p1.trace = rexLearningFetch.trace ++ [.sendTrySchema "fetch" ["ball"]] ∧
      (setTriedSchema "candidate1" p1).trace = p1.trace ∧
      trySchema ["fetch", "ball"] 6 (setTriedSchema "candidate1" p1) = .ok p3 ∧
      p3.trace = p1.trace ++ [.tryExecuteSchema "fetch"] :=
  trySchema_twice_forces_reexecution rexLearningFetch "fetch" "candidate1" ["ball"] []
    ["fetch", "ball"] 5 6 rfl rfl (by decide) (by decide)

/-- C4: in LEARNING mode with an empty learning schema, `reward(t)` and `punish(t)` only
record the timestamp: they issue no call at all (no Reward message, no rule-engine call)
and leave the candidate-executed flag as it was. -/
theorem reward_punish_without_schema (c : Config) (t : Nat) (p : Pet)
    (hm : p.mode = .LEARNING) (hs : p.learningSchema = []) :
    reward c t p = { p with latestRewardTimestamp := t } ∧
    punish c t p = { p with latestPunishmentTimestamp := t } ∧
    (reward c t p).trace = p.trace ∧ (punish c t p).trace = p.trace ∧
    (reward c t p).candidateSchemaExecuted = p.candidateSchemaExecuted ∧
    (punish c t p).candidateSchemaExecuted = p.candidateSchemaExecuted := by
  have hr : reward c t p = { p with latestRewardTimestamp := t } := by
    simp [reward, isInLearningMode, hm, hs]
  have hp : punish c t p = { p with latestPunishmentTimestamp := t } := by
    simp [punish, isInLearningMode, hm, hs]
  rw [hr, hp]
  exact ⟨rfl, rfl, rfl, rfl, rfl, rfl⟩

/-- Instance of `reward_punish_without_schema`: LEARNING mode, no schema, the flag false. -/
theorem reward_punish_without_schema_witness :
    rexLearningNothing.mode = .LEARNING ∧ rexLearningNothing.learningSchema = [] ∧
    (reward ⟨1, -1⟩ 9 rexLearningNothing).trace = rexLearningNothing.trace ∧
    (punish ⟨1, -1⟩ 9 rexLearningNothing).trace = rexLearningNothing.trace ∧
    (reward ⟨1, -1⟩ 9 rexLearningNothing).candidateSchemaExecuted = false ∧
    (punish ⟨1, -1⟩ 9 rexLearningNothing).candidateSchemaExecuted = false :=
  ⟨rfl, rfl, (reward_punish_without_schema ⟨1, -1⟩ 9 rexLearningNothing rfl rfl).2.2⟩

/-- C5 (as amended): for every non-empty schema `schemaName :: args` and all timestamps
`t0 ≤ t1 ≤ t2` with `t1` different from the undefined sentinel 0, starting from a freshly
constructed controller, `startLearning(s, t0); startExemplar([], t1); endExemplar([], t2)`
returns normally, the only message sent to the learning service during the whole run is one
Exemplar message with schema name `schemaName` and args `args`, and both window timestamps
end undefined. -/
theorem exemplar_roundtrip (a0 a1 a2 : AtomSpace) (petId petName ownerId : String)
    (startSession endSession : Nat) (schemaName : String) (args : List String)
    (t0 t1 t2 : Nat) (_h01 : t0 ≤ t1) (_h12 : t1 ≤ t2) (hset : t1 ≠ UNDEFINED_TIMESTAMP) :
    ∃ p0 p1 p2 p3,
      Pet.construct a0 petId petName ownerId startSession endSession = .ok p0 ∧
      startLearning a1 (.vector (schemaName :: args)) t0 p0 = .ok p1 ∧
      startExemplar [] t1 p1 = .ok p2 ∧
      endExemplar a2 [] t2 p2 = .ok p3 ∧
      p3.trace = p1.trace ++ [.behaviorEncoder schemaName t1 t2 ""]
        ++ spaceMapCalls a2 t1 t2 ++ [.sendExemplar schemaName args ownerId ""] ∧
      p3.trace.filter Event.toLearningService = [.sendExemplar schemaName args ownerId ""] ∧
      p3.exemplarStartTimestamp = UNDEFINED_TIMESTAMP ∧
      p3.exemplarEndTimestamp = UNDEFINED_TIMESTAMP := by
  have h0 := construct_eq a0 petId petName ownerId startSession endSession
  have h1 := startLearning_of_not_learning a1 (.vector (schemaName :: args)) t0
    (Pet.fresh petId petName ownerId startSession endSession) (by simp [Pet.fresh])
    (List.cons_ne_nil _ _)
  simp only [SchemaArg.read] at h1
  generalize hp1 : ({ Pet.fresh petId petName ownerId startSession endSession with
        learningSchema := schemaName :: args, startLearningSessionTimestamp := t0,
        mode := PetMode.LEARNING,
        trace := (Pet.fresh petId petName ownerId startSession endSession).trace
          ++ [Event.sendFeedback (Pet.fresh petId petName ownerId startSession endSession).petId
              ((Pet.fresh petId petName ownerId startSession endSession).petName
                ++ " entering \"Learning Mode\"")] } : Pet) = p1 at h1
  have hm1 : p1.mode = .LEARNING := by rw [← hp1]
  have hs1 : p1.learningSchema = schemaName :: args := by rw [← hp1]
  have ho1 : p1.ownerId = ownerId := by rw [← hp1]; rfl
  have ha1 : p1.exemplarAvatarId = "" := by rw [← hp1]; rfl
  have ht1 : p1.trace.filter Event.toLearningService = [] := by
    rw [← hp1]; simp [Pet.fresh, Event.toLearningService]
  have h2 := startExemplar_of_learning [] t1 p1
    (not_logReadsEmptyFront_of_cons [] p1 schemaName args hs1) hm1 (Or.inl rfl)
  have h3 := endExemplar_of_open_window a2 [] t2
    { p1 with candidateSchemaExecuted := true, exemplarStartTimestamp := t1 }
    schemaName args hm1 hset hs1 (Or.inl rfl)
  refine ⟨_, p1, _, _, h0, h1, h2, h3, ?_, ?_, rfl, rfl⟩
  · simp only [ho1, ha1]
  · simp only [ho1, ha1, List.filter_append, ht1,
      (spaceMapCalls_not_messages a2 t1 t2).1]
    simp [Event.toLearningService]

/-- Instance of `exemplar_roundtrip`: the schema `["fetch", "ball"]` at the times 1, 2, 3. -/
theorem exemplar_roundtrip_witness :
    (1 : Nat) ≤ 2 ∧ (2 : Nat) ≤ 3 ∧ (2 : Nat) ≠ UNDEFINED_TIMESTAMP ∧
    ∃ p0 p1 p2 p3,
      Pet.construct emptyStore "pet1" "Rex" "owner1" 0 0 = .ok p0 ∧
      startLearning emptyStore (.vector ["fetch", "ball"]) 1 p0 = .ok p1 ∧
      startExemplar [] 2 p1 = .ok p2 ∧
      endExemplar avatar42Store [] 3 p2 = .ok p3 ∧
      p3.trace = p1.trace ++ [.behaviorEncoder "fetch" 2 3 ""]
        ++ spaceMapCalls avatar42Store 2 3 ++ [.sendExemplar "fetch" ["ball"] "owner1" ""] ∧
      p3.trace.filter Event.toLearningService = [.sendExemplar "fetch" ["ball"] "owner1" ""] ∧
      p3.exemplarStartTimestamp = UNDEFINED_TIMESTAMP ∧
      p3.exemplarEndTimestamp = UNDEFINED_TIMESTAMP :=
  ⟨by decide, by decide, by decide,
    exemplar_roundtrip emptyStore emptyStore avatar42Store "pet1" "Rex" "owner1" 0 0
      "fetch" ["ball"] 1 2 3 (by decide) (by decide) (by decide)⟩

/-- C5 fails as stated at `t0 = t1 = 0 ≤ t2 = 5`: the window start 0 is the undefined
sentinel, `endExemplar` takes the window as not open and returns without sending anything;
the trace after the three calls is the trace after `startLearning`, with no Exemplar
message in it. -/
theorem exemplar_roundtrip_zero_start_sends_nothing :
    (0 : Nat) ≤ 0 ∧ (0 : Nat) ≤ 5 ∧
    Pet.construct emptyStore "pet1" "Rex" "owner1" 0 0 = .ok rex ∧
    startLearning emptyStore (.vector ["fetch", "ball"]) 0 rex = .ok rexLearningFetchAtZero ∧
    startExemplar [] 0 rexLearningFetchAtZero = .ok rexLearningFetchAtZero ∧
    endExemplar emptyStore [] 5 rexLearningFetchAtZero = .ok rexLearningFetchAtZero ∧
    rexLearningFetchAtZero.trace.filter Event.toLearningService = [] := by
  decide

/-- C6 (the code at the failing input): after `startLearning(["stand"], 1); startExemplar([], 4)`
on a fresh controller the mode is LEARNING and the active schema is `["stand"]`; the empty
argument differs from it, and `stopLearning([], 9)` reads the first token of its empty
argument in the debug statement that opens the function: the call is undefined, and it is so
before the window is reset.  With the argument `["sit"]` the same call returns having reset
the window and nothing else. -/
theorem stopLearning_empty_argument_reads_front :
    Pet.construct emptyStore "pet1" "Rex" "owner1" 0 0 = .ok rex ∧
    run learnStandWithWindow rex = some rexStandWindow ∧
    rexStandWindow.mode = .LEARNING ∧
    ([] : List String) ≠ rexStandWindow.learningSchema ∧
    stopLearning emptyStore [] 9 rexStandWindow = .undefined ∧
    stopLearning emptyStore ["sit"] 9 rexStandWindow
      = .ok { rexStandWindow with exemplarStartTimestamp := UNDEFINED_TIMESTAMP,
                                  exemplarEndTimestamp := UNDEFINED_TIMESTAMP } := by
  decide

/-- C7 (the code at the failing input): the controller learns `["spin"]` from `avatar42`,
which the store resolves, and `startLearning` is called with the reference that
`getLearningSchema()` returns, that is with the non-empty schema `["spin"]`.  The forced stop
sends the StopLearning message for `spin` and clears the member the argument refers to, and
the assignment that follows installs the empty vector: the call returns in LEARNING mode with
the source `avatar42` kept and an empty learning schema.  Called with a vector of the caller
that holds `["spin"]`, it ends with the learning schema `["spin"]`. -/
theorem startLearning_aliased_argument_installs_empty_schema :
    Pet.construct avatar42Store "pet1" "Rex" "owner1" 0 0 = .ok rex ∧
    (setExemplarAvatarId avatar42Store "avatar42" rex).bind
        (startLearning avatar42Store (.vector ["spin"]) 1) = .ok rexLearningSpinFrom42 ∧
    rexLearningSpinFrom42.mode = .LEARNING ∧
    sourceResolves avatar42Store rexLearningSpinFrom42.exemplarAvatarId ∧
    SchemaArg.getLearningSchema.read rexLearningSpinFrom42 = ["spin"] ∧
    (∃ q, startLearning avatar42Store .getLearningSchema 9 rexLearningSpinFrom42 = .ok q ∧
      q.trace.drop rexLearningSpinFrom42.trace.length
        = [.trickSession "spin" 1 9, .sendStopLearning "spin" [],
           .isExemplarAvatar "avatar42" 7 false,
           .sendFeedback "pet1" "Rex entering \"Playing Mode\"",
           .isExemplarAvatar "avatar42" 7 true,
           .sendFeedback "pet1" "Rex entering \"Learning Mode\""] ∧
      q.mode = .LEARNING ∧ q.exemplarAvatarId = "avatar42" ∧ q.learningSchema = []) ∧
    (∃ q, startLearning avatar42Store (.vector ["spin"]) 9 rexLearningSpinFrom42 = .ok q ∧
      q.learningSchema = ["spin"]) := by
  refine ⟨by decide, by decide, rfl, by decide, rfl,
    ⟨_, startLearning_of_learning_aliased avatar42Store rexLearningSpinFrom42 "spin" [] 9
      rfl rfl (by decide), by decide, rfl, rfl, rfl⟩,
    ⟨_, startLearning_of_learning avatar42Store rexLearningSpinFrom42 "spin" [] ["spin"] 9
      rfl rfl (by decide) (by decide), rfl⟩⟩

/-- C8 (the code at the failing input): on the freshly constructed controller, which is in
PLAYING mode, `startLearning([], 5)` makes no test of its argument and reads the first token
of the empty argument in its first statement: the call is undefined, where the claim has it
return with the state unchanged. -/
theorem startLearning_empty_schema_reads_front :
    Pet.construct emptyStore "pet1" "Rex" "owner1" 0 0 = .ok rex ∧
    rex.mode ≠ .LEARNING ∧
    SchemaArg.read (.vector []) rex = [] ∧
    startLearning emptyStore (.vector []) 5 rex = .undefined := by
  decide

/-- C9 (as amended): in every state whose learning schema is `schemaName :: args` and whose
demonstration source is empty or resolves to exactly one store node,
`stopLearning(schema, t)` with the schema equal to the learning schema returns normally,
the only message it sends to the learning service is one StopLearning message carrying
`schemaName` and `args`, and the call ends with mode PLAYING, the session end timestamp `t`
and the learning schema, tried schema, window and demonstration source cleared. -/
theorem stopLearning_match_sends_and_plays (a : AtomSpace) (t : Nat) (p : Pet)
    (schemaName : String) (args : List String)
    (hs : p.learningSchema = schemaName :: args)
    (hres : sourceResolves a p.exemplarAvatarId) :
    ∃ q calls, stopLearning a (schemaName :: args) t p = .ok q ∧ q.trace = p.trace ++ calls ∧
      calls = [.trickSession schemaName p.startLearningSessionTimestamp t,
               .sendStopLearning schemaName args]
          ++ avatarCalls a p.exemplarAvatarId false
          ++ [.sendFeedback p.petId (p.petName ++ " entering \"Playing Mode\"")] ∧
      calls.filter Event.toLearningService = [.sendStopLearning schemaName args] ∧
      q.mode = .PLAYING ∧ q.endLearningSessionTimestamp = t ∧
      q.learningSchema = [] ∧ q.triedSchema = "" ∧
      q.exemplarStartTimestamp = UNDEFINED_TIMESTAMP ∧
      q.exemplarEndTimestamp = UNDEFINED_TIMESTAMP ∧ q.exemplarAvatarId = "" := by
  refine ⟨_, _, stopLearning_of_match a t p schemaName args hs hres, ?_, rfl, ?_,
    rfl, rfl, rfl, rfl, rfl, rfl, rfl⟩
  · simp
  · simp [List.filter_append, (avatarCalls_not_messages a p.exemplarAvatarId false).1,
      Event.toLearningService]

/-- Instance of `stopLearning_match_sends_and_plays`: learning `spin` from `avatar42`, which
the store resolves. -/
theorem stopLearning_match_sends_and_plays_witness :
    sourceResolves avatar42Store rexSpinning.exemplarAvatarId ∧
    ∃ q calls, stopLearning avatar42Store ["spin"] 9 rexSpinning = .ok q ∧
      q.trace = rexSpinning.trace ++ calls ∧
      calls = [.trickSession "spin" rexSpinning.startLearningSessionTimestamp 9,
               .sendStopLearning "spin" []]
          ++ avatarCalls avatar42Store rexSpinning.exemplarAvatarId false
          ++ [.sendFeedback rexSpinning.petId (rexSpinning.petName ++ " entering \"Playing Mode\"")] ∧
      calls.filter Event.toLearningService = [.sendStopLearning "spin" []] ∧
      q.mode = .PLAYING ∧ q.endLearningSessionTimestamp = 9 ∧
      q.learningSchema = [] ∧ q.triedSchema = "" ∧
      q.exemplarStartTimestamp = UNDEFINED_TIMESTAMP ∧
      q.exemplarEndTimestamp = UNDEFINED_TIMESTAMP ∧ q.exemplarAvatarId = "" :=
  ⟨by decide, stopLearning_match_sends_and_plays avatar42Store 9 rexSpinning "spin" [] rfl
    (by decide)⟩

/-- C9 fails as stated: the controller learning `["spin"]` from the source `ghost`, which
names no node of the store, has a non-empty learning schema; `stopLearning(["spin"], 2)`
sends the StopLearning message and then leaves by the exception raised in
`setMode(PLAYING)`, with the learning schema still `["spin"]` and the demonstration source
still `ghost`. -/
theorem stopLearning_unresolved_source_keeps_schema :
    rexLearningFromGhost.learningSchema = ["spin"] ∧
    ∃ q, stopLearning emptyStore ["spin"] 2 rexLearningFromGhost = .thrown q ∧
      q.trace = rexLearningFromGhost.trace
        ++ [.trickSession "spin" 1 2, .sendStopLearning "spin" []] ∧
      q.mode = .PLAYING ∧ q.learningSchema = ["spin"] ∧ q.exemplarAvatarId = "ghost" := by
  refine ⟨rfl, _, stopLearning_of_unresolved emptyStore 2 rexLearningFromGhost "spin" [] rfl
    (by decide), rfl, rfl, rfl, rfl⟩

/-- C10: in LEARNING mode with the window start set, a learning schema `schemaName :: args`
and a schema argument that is empty or equal to the learning schema, `endExemplar(schema, t)`
returns normally having issued, in this order, the encoder run over the window
`[start, t]` for `schemaName`, the calls of the space-map persistence step, and one Exemplar
message carrying `schemaName`, `args`, the owner id and the demonstration-source id, which
is the only message of the call; afterwards both window timestamps are undefined and no
other member has changed. -/
theorem endExemplar_encodes_persists_sends (a : AtomSpace) (commandStatement : List String)
    (t : Nat) (p : Pet) (schemaName : String) (args : List String)
    (hm : p.mode = .LEARNING) (hw : p.exemplarStartTimestamp ≠ UNDEFINED_TIMESTAMP)
    (hs : p.learningSchema = schemaName :: args)
    (hc : commandStatement = [] ∨ commandStatement = p.learningSchema) :
    ∃ q calls, endExemplar a commandStatement t p = .ok q ∧ q.trace = p.trace ++ calls ∧
      calls = [.behaviorEncoder schemaName p.exemplarStartTimestamp t p.exemplarAvatarId]
          ++ spaceMapCalls a p.exemplarStartTimestamp t
          ++ [.sendExemplar schemaName args p.ownerId p.exemplarAvatarId] ∧
      calls.filter Event.toLearningService
        = [.sendExemplar schemaName args p.ownerId p.exemplarAvatarId] ∧
      calls.filter Event.toFeedbackChannel = [] ∧
      q = { p with exemplarStartTimestamp := UNDEFINED_TIMESTAMP,
                   exemplarEndTimestamp := UNDEFINED_TIMESTAMP,
                   trace := p.trace ++ calls } := by
  refine ⟨_, _, endExemplar_of_open_window a commandStatement t p schemaName args hm hw hs hc,
    ?_, rfl, ?_, ?_, ?_⟩
  · simp
  · simp [List.filter_append, (spaceMapCalls_not_messages a p.exemplarStartTimestamp t).1,
      Event.toLearningService]
  · simp [List.filter_append, (spaceMapCalls_not_messages a p.exemplarStartTimestamp t).2.1,
      Event.toFeedbackChannel]
  · simp

/-- Instance of `endExemplar_encodes_persists_sends`: learning `spin` from `avatar42` with the
window open since 4, closed at 9; the store holds the space maps 3 (still in the space
server) and 4 (gone from it). -/
theorem endExemplar_encodes_persists_sends_witness :
    ∃ q calls, endExemplar avatar42Store [] 9 rexSpinning = .ok q ∧
      q.trace = rexSpinning.trace ++ calls ∧
      calls = [.behaviorEncoder "spin" rexSpinning.exemplarStartTimestamp 9
                rexSpinning.exemplarAvatarId]
          ++ spaceMapCalls avatar42Store rexSpinning.exemplarStartTimestamp 9
          ++ [.sendExemplar "spin" [] rexSpinning.ownerId rexSpinning.exemplarAvatarId] ∧
      calls.filter Event.toLearningService
        = [.sendExemplar "spin" [] rexSpinning.ownerId rexSpinning.exemplarAvatarId] ∧
      calls.filter Event.toFeedbackChannel = [] ∧
      q = { rexSpinning with exemplarStartTimestamp := UNDEFINED_TIMESTAMP,
                             exemplarEndTimestamp := UNDEFINED_TIMESTAMP,
                             trace := rexSpinning.trace ++ calls } :=
  endExemplar_encodes_persists_sends avatar42Store [] 9 rexSpinning "spin" [] rfl (by decide)
    rfl (Or.inl rfl)

/-- C11 (the code at the failing input): the freshly constructed controller is in PLAYING mode
with the window start undefined and no learning schema, so `endExemplar([], 9)` is on the
rejected path; before either test the debug statement that opens the function reads the
first token of the empty learning schema: the call is undefined.  With the argument
`["sit"]` the same call returns with the object as it was. -/
theorem endExemplar_rejected_path_reads_front :
    Pet.construct emptyStore "pet1" "Rex" "owner1" 0 0 = .ok rex ∧
    rex.mode ≠ .LEARNING ∧ rex.exemplarStartTimestamp = UNDEFINED_TIMESTAMP ∧
    rex.learningSchema = [] ∧
    endExemplar emptyStore [] 9 rex = .undefined ∧
    endExemplar emptyStore ["sit"] 9 rex = .ok rex := by
  decide

/-- C12 (the code at the failing input): the freshly constructed controller is in PLAYING mode
without a learning schema, so `startExemplar([], 9)` should leave the state as it is; before
the mode test the debug statement that opens the function reads the first token of the empty
learning schema: the call is undefined.  With the argument `["sit"]` the same call returns
with the object as it was. -/
theorem startExemplar_fresh_controller_reads_front :
    Pet.construct emptyStore "pet1" "Rex" "owner1" 0 0 = .ok rex ∧
    rex.mode ≠ .LEARNING ∧ rex.learningSchema = [] ∧
    startExemplar [] 9 rex = .undefined ∧
    startExemplar ["sit"] 9 rex = .ok rex := by
  decide

/-- C13: in LEARNING mode with a learning schema `schemaName :: args` whose name is not empty
and a non-empty tried-schema name, `reward(t)` records the timestamp, sets the
candidate-executed flag to true and issues exactly one call, the Reward message
`(schemaName, args, triedSchema, POSITIVE_REWARD)`; `punish(t)` does the same with
`NEGATIVE_REWARD`.  The magnitudes are the configured ones, positive and negative
respectively for a configuration as the spec describes it. -/
theorem reward_punish_send_reward (c : Config) (t : Nat) (p : Pet) (schemaName : String)
    (args : List String) (hm : p.mode = .LEARNING)
    (hs : p.learningSchema = schemaName :: args) (hn : schemaName ≠ "")
    (ht : p.triedSchema ≠ "") (hc : c.signed) :
    reward c t p
      = { p with latestRewardTimestamp := t, candidateSchemaExecuted := true,
                 trace := p.trace
                   ++ [.sendReward schemaName args p.triedSchema c.POSITIVE_REWARD] } ∧
    0 < c.POSITIVE_REWARD ∧
    punish c t p
      = { p with latestPunishmentTimestamp := t, candidateSchemaExecuted := true,
                 trace := p.trace
                   ++ [.sendReward schemaName args p.triedSchema c.NEGATIVE_REWARD] } ∧
    c.NEGATIVE_REWARD < 0 := by
  refine ⟨?_, hc.1, ?_, hc.2⟩
  · simp [reward, isInLearningMode, hm, hs, hn, ht, Pet.emit]
  · simp [punish, isInLearningMode, hm, hs, hn, ht, Pet.emit]

/-- Instance of `reward_punish_send_reward`: learning `fetch ball` with the trial `candidate1`
pending, magnitudes 1 and -1. -/
theorem reward_punish_send_reward_witness :
    unitRewards.signed ∧
    reward unitRewards 9 rexTryingFetch
      = { rexTryingFetch with
            latestRewardTimestamp := 9, candidateSchemaExecuted := true,
            trace := rexTryingFetch.trace
              ++ [.sendReward "fetch" ["ball"] rexTryingFetch.triedSchema
                    unitRewards.POSITIVE_REWARD] } ∧
    0 < unitRewards.POSITIVE_REWARD ∧
    punish unitRewards 9 rexTryingFetch
      = { rexTryingFetch with
            latestPunishmentTimestamp := 9, candidateSchemaExecuted := true,
            trace := rexTryingFetch.trace
              ++ [.sendReward "fetch" ["ball"] rexTryingFetch.triedSchema
                    unitRewards.NEGATIVE_REWARD] } ∧
    unitRewards.NEGATIVE_REWARD < 0 :=
  ⟨by decide, reward_punish_send_reward unitRewards 9 rexTryingFetch "fetch" ["ball"] rfl rfl
    (by decide) (by decide) (by decide)⟩

/-- C14: in PLAYING or SCAVENGER_HUNT mode, `reward(t)` issues exactly one call, the rule
engine's `rewardRule(t)`, and `punish(t)` exactly one call, `punishRule(t)`; no message goes
to the learning service, and the only member written is the latest reward (respectively
punishment) timestamp, which becomes `t`. -/
theorem reward_punish_delegate_to_rule_engine (c : Config) (t : Nat) (p : Pet)
    (hm : p.mode = .PLAYING ∨ p.mode = .SCAVENGER_HUNT) :
    reward c t p
      = { p with latestRewardTimestamp := t, trace := p.trace ++ [.rewardRule t] } ∧
    punish c t p
      = { p with latestPunishmentTimestamp := t, trace := p.trace ++ [.punishRule t] } ∧
    [Event.rewardRule t].filter Event.toLearningService = [] ∧
    [Event.punishRule t].filter Event.toLearningService = [] := by
  have hl : p.mode ≠ .LEARNING := by
    rcases hm with h | h <;> rw [h] <;> decide
  refine ⟨?_, ?_, rfl, rfl⟩
  · simp [reward, isInLearningMode, hl, Pet.emit]
  · simp [punish, isInLearningMode, hl, Pet.emit]

/-- Instance of `reward_punish_delegate_to_rule_engine`: the freshly constructed controller,
in PLAYING mode. -/
theorem reward_punish_delegate_to_rule_engine_witness :
    rex.mode = .PLAYING ∧
    reward unitRewards 9 rex
      = { rex with latestRewardTimestamp := 9, trace := rex.trace ++ [.rewardRule 9] } ∧
    punish unitRewards 9 rex
      = { rex with latestPunishmentTimestamp := 9, trace := rex.trace ++ [.punishRule 9] } :=
  ⟨rfl, (reward_punish_delegate_to_rule_engine unitRewards 9 rex (Or.inl rfl)).1,
    (reward_punish_delegate_to_rule_engine unitRewards 9 rex (Or.inl rfl)).2.1⟩

/-- C15: `schemaSelectedToExecute(name)` with `name` equal to the tried-schema name sets the
candidate-executed flag to true and issues exactly one call, a feedback message addressed to
the agent id whose text is the agent name, ` trying schema " `, `name` and a closing quote;
with any other name it leaves the object as it was, trace included. -/
theorem schemaSelectedToExecute_spec (schemaName : String) (p : Pet) :
    schemaSelectedToExecute schemaName p
      = (if p.triedSchema = schemaName then
          { p with candidateSchemaExecuted := true,
                   trace := p.trace
                     ++ [.sendFeedback p.petId
                          (p.petName ++ " trying schema \" " ++ schemaName ++ "\"")] }
        else p) := by
  unfold schemaSelectedToExecute
  split <;> simp [Pet.emit]

/-- C17 (the code at the failing input): on the freshly constructed controller named `Rex`,
`setMode(SCAVENGER_HUNT)` returns normally and emits exactly one feedback message, addressed
to the agent id `pet1`, whose text is the empty string: it contains neither the agent's name
nor the new mode. -/
theorem setMode_SCAVENGER_HUNT_sends_empty_feedback :
    rex.petName = "Rex" ∧
    setMode emptyStore .SCAVENGER_HUNT rex
      = .ok { rex with mode := .SCAVENGER_HUNT,
                       trace := rex.trace ++ [.sendFeedback "pet1" ""] } := by
  decide

/-- C19 (as amended): whenever a call `endExemplar(schema, t)` that returns has run the
encoder, the mode is LEARNING, the window start was already set (it is not the undefined
sentinel), and the encoder has run on the interval from that start to `t`, the timestamp the
window end was just set to.  No order between start and `t` is required. -/
theorem endExemplar_encoder_window (a : AtomSpace) (commandStatement : List String) (t : Nat)
    (p q : Pet) (schemaName avatarId : String) (lower upper : Nat)
    (h : endExemplar a commandStatement t p = .ok q)
    (he : Event.behaviorEncoder schemaName lower upper avatarId
      ∈ q.trace.drop p.trace.length) :
    p.mode = .LEARNING ∧ lower = p.exemplarStartTimestamp ∧
      lower ≠ UNDEFINED_TIMESTAMP ∧ upper = t := by
  by_cases hg : p.mode = .LEARNING ∧ p.exemplarStartTimestamp ≠ UNDEFINED_TIMESTAMP ∧
      (commandStatement = [] ∨ commandStatement = p.learningSchema)
  · obtain ⟨hm, hw, hc⟩ := hg
    cases hs : p.learningSchema with
    | nil =>
      rw [endExemplar_of_empty_schema a commandStatement t p hs hc] at h
      cases h
    | cons name args =>
      rw [endExemplar_of_open_window a commandStatement t p name args hm hw hs hc] at h
      cases h
      have hmem : Event.behaviorEncoder schemaName lower upper avatarId
          ∈ [Event.behaviorEncoder name p.exemplarStartTimestamp t p.exemplarAvatarId]
            ++ spaceMapCalls a p.exemplarStartTimestamp t
            ++ [Event.sendExemplar name args p.ownerId p.exemplarAvatarId] := by
        simpa [List.append_assoc] using he
      rw [List.mem_append, List.mem_append, List.mem_singleton, List.mem_singleton] at hmem
      rcases hmem with (hx | hx) | hx
      · rw [Event.behaviorEncoder.injEq] at hx
        obtain ⟨-, hl, hu, -⟩ := hx
        exact ⟨hm, hl, hl ▸ hw, hu⟩
      · exfalso
        unfold spaceMapCalls at hx
        split at hx
        · cases hx
        · split at hx
          · cases hx
          · rw [List.mem_map] at hx
            obtain ⟨mapHandle, -, hy⟩ := hx
            split at hy <;> cases hy
      · cases hx
  · have hr : p.mode ≠ .LEARNING ∨ p.exemplarStartTimestamp = UNDEFINED_TIMESTAMP ∨
        (commandStatement ≠ [] ∧ commandStatement ≠ p.learningSchema) := by
      by_cases h1 : p.mode = .LEARNING
      · by_cases h2 : p.exemplarStartTimestamp = UNDEFINED_TIMESTAMP
        · exact Or.inr (Or.inl h2)
        · refine Or.inr (Or.inr ?_)
          have h3 : ¬ (commandStatement = [] ∨ commandStatement = p.learningSchema) :=
            fun h3 => hg ⟨h1, h2, h3⟩
          push_neg at h3
          exact h3
      · exact Or.inl h1
    by_cases hlog : logReadsEmptyFront commandStatement p
    · rw [endExemplar_of_log a commandStatement t p hlog] at h
      cases h
    · rw [endExemplar_of_rejected a commandStatement t p hlog hr] at h
      cases h
      simp at he

/-- Instance of `endExemplar_encoder_window`: learning `spin` from `avatar42` with the window
open since 4, `endExemplar([], 9)`. -/
theorem endExemplar_encoder_window_witness :
    endExemplar avatar42Store [] 9 rexSpinning = .ok rexSpinningEnded ∧
    Event.behaviorEncoder "spin" 4 9 "avatar42"
      ∈ rexSpinningEnded.trace.drop rexSpinning.trace.length ∧
    rexSpinning.mode = .LEARNING ∧ (4 : Nat) = rexSpinning.exemplarStartTimestamp ∧
      (4 : Nat) ≠ UNDEFINED_TIMESTAMP ∧ (9 : Nat) = 9 :=
  ⟨by decide, by decide,
    endExemplar_encoder_window avatar42Store [] 9 rexSpinning rexSpinningEnded
      "spin" "avatar42" 4 9 (by decide) (by decide)⟩

/-- C19 fails as stated: while learning `spin` with the window open since 4,
`endExemplar([], 2)` passes both guards, sets the window end to 2 although the start 4 is
greater, and runs the encoder on the interval from 4 to 2. -/
theorem endExemplar_end_before_start :
    rexSpinning.exemplarStartTimestamp = 4 ∧ ¬ ((4 : Nat) ≤ 2) ∧
    endExemplar avatar42Store [] 2 rexSpinning
      = .ok { rexSpinning with
          exemplarStartTimestamp := UNDEFINED_TIMESTAMP,
          exemplarEndTimestamp := UNDEFINED_TIMESTAMP,
          trace := rexSpinning.trace
            ++ [.behaviorEncoder "spin" 4 2 "avatar42",
                .sendExemplar "spin" [] "owner1" "avatar42"] } := by
  decide

/-- C20: when `setExemplarAvatarId(new)` returns normally from a state with previous source
`old`, the calls it has issued are the retraction of `old` as exemplar avatar (present only
if `old` is non-empty) followed by the assertion of `new` (present only if `new` is
non-empty), the stored demonstration-source id is `new`, no other member has changed, and
at most one of the calls asserts a source as active. -/
theorem setExemplarAvatarId_retracts_then_asserts (a : AtomSpace) (id : String) (p q : Pet)
    (h : setExemplarAvatarId a id p = .ok q) :
    ∃ retracted asserted, q.trace = p.trace ++ retracted ++ asserted ∧
      retracted = (if p.exemplarAvatarId = "" then []
        else [.isExemplarAvatar p.exemplarAvatarId
                ((a.getHandleSet p.exemplarAvatarId).headD 0) false]) ∧
      asserted = (if id = "" then []
        else [.isExemplarAvatar id ((a.getHandleSet id).headD 0) true]) ∧
      q.exemplarAvatarId = id ∧
      q = { p with exemplarAvatarId := id, trace := p.trace ++ retracted ++ asserted } ∧
      ((retracted ++ asserted).filter Event.assertsActive).length ≤ 1 := by
  obtain ⟨h1, h2⟩ := setExemplarAvatarId_ok_resolves a id p q h
  rw [setExemplarAvatarId_of_resolves a id p h1 h2] at h
  cases h
  refine ⟨avatarCalls a p.exemplarAvatarId false, avatarCalls a id true, rfl, rfl, rfl, rfl,
    rfl, ?_⟩
  rw [List.filter_append, (avatarCalls_assertsActive a p.exemplarAvatarId).1, List.nil_append]
  exact (avatarCalls_assertsActive a id).2

/-- Instance of `setExemplarAvatarId_retracts_then_asserts`: the controller learning `spin`
from `avatar42` is given `avatar42` again; the old relation is retracted, then the new one
asserted. -/
theorem setExemplarAvatarId_retracts_then_asserts_witness :
    setExemplarAvatarId avatar42Store "avatar42" rexSpinning = .ok rexSpinningReasserted ∧
    ∃ retracted asserted,
      rexSpinningReasserted.trace = rexSpinning.trace ++ retracted ++ asserted ∧
      retracted = (if rexSpinning.exemplarAvatarId = "" then []
        else [.isExemplarAvatar rexSpinning.exemplarAvatarId
                ((avatar42Store.getHandleSet rexSpinning.exemplarAvatarId).headD 0) false]) ∧
      asserted = (if "avatar42" = "" then []
        else [.isExemplarAvatar "avatar42" ((avatar42Store.getHandleSet "avatar42").headD 0)
                true]) ∧
      rexSpinningReasserted.exemplarAvatarId = "avatar42" ∧
      rexSpinningReasserted
        = { rexSpinning with exemplarAvatarId := "avatar42",
                             trace := rexSpinning.trace ++ retracted ++ asserted } ∧
      ((retracted ++ asserted).filter Event.assertsActive).length ≤ 1 :=
  ⟨by decide,
    setExemplarAvatarId_retracts_then_asserts avatar42Store "avatar42" rexSpinning
      rexSpinningReasserted (by decide)⟩

/-- C16 (as amended): in every state reached from construction through the session
operations, the candidate-executed flag is false exactly when the most recent call that
writes the flag is a `setTriedSchema`, that is, when the most recent `setTriedSchema` has not
since been followed by a `schemaSelectedToExecute` whose name is the tried-schema name the
controller holds at that call (the name of the most recent `setTriedSchema`, or the empty
name once an entry into PLAYING mode has cleared it), by a `startExemplar` that opens a
window, or by a `reward` or `punish` that is forwarded to the learning service.  These set
the flag; mode changes (`setMode`, `startLearning`, `stopLearning`) and every other call
leave it as it is. -/
theorem flag_false_iff_trial_pending (a : AtomSpace) (petId petName ownerId : String)
    (startSession endSession : Nat) (ops : List Op) (p0 q : Pet)
    (h0 : Pet.construct a petId petName ownerId startSession endSession = .ok p0)
    (h : run ops p0 = some q) :
    q.candidateSchemaExecuted = false ↔ lastWrite (flagEffects ops p0) = .cleared := by
  rw [construct_eq] at h0
  cases h0
  have hf := run_flag ops _ q .kept true h rfl
  unfold lastWrite
  rw [← hf]
  cases List.foldl FlagEffect.andThen FlagEffect.kept
    (flagEffects ops (Pet.fresh petId petName ownerId startSession endSession)) <;>
    simp [FlagEffect.apply]

/-- Instance of `flag_false_iff_trial_pending`: the run that proposes the trial `candidate1`,
sends the controller to PLAYING, which clears the tried-schema name, and then confirms
`candidate1`.  The confirmation no longer matches the name the controller holds and writes
nothing; the flag is false and the last write is the `setTriedSchema`. -/
theorem flag_false_iff_trial_pending_witness :
    Pet.construct emptyStore "pet1" "Rex" "owner1" 0 0 = .ok rex ∧
    run proposePlayConfirm rex = some rexProposedPlayedConfirmed ∧
    flagEffects proposePlayConfirm rex = [.kept, .cleared, .kept, .kept] ∧
    rexProposedPlayedConfirmed.candidateSchemaExecuted = false ∧
    lastWrite (flagEffects proposePlayConfirm rex) = .cleared :=
  ⟨by decide, by decide, by decide, rfl,
    (flag_false_iff_trial_pending emptyStore "pet1" "Rex" "owner1" 0 0 proposePlayConfirm rex
      rexProposedPlayedConfirmed (by decide) (by decide)).mp rfl⟩

/-- C16 fails as stated, both ways.  After `setTriedSchema("candidate1")` a mode re-entry
through `setMode(PLAYING)` or through a second `startLearning` leaves the flag false; and a
`reward` in LEARNING mode, which is none of the three listed events, makes it true. -/
theorem flag_ignores_mode_change_and_follows_reward :
    Pet.construct emptyStore "pet1" "Rex" "owner1" 0 0 = .ok rex ∧
    Option.map Pet.candidateSchemaExecuted (run proposeThenPlay rex) = some false ∧
    Option.map Pet.mode (run proposeThenPlay rex) = some .PLAYING ∧
    Option.map Pet.candidateSchemaExecuted (run proposeThenRelearn rex) = some false ∧
    Option.map Pet.learningSchema (run proposeThenRelearn rex) = some ["fetch"] ∧
    Option.map Pet.candidateSchemaExecuted (run proposeThenReward rex) = some true := by
  decide

/-- C18 (as amended): in every state reached from construction through the session operations
(`setMode`, `startLearning`, `stopLearning`, `startExemplar`, `endExemplar`, `trySchema`,
`reward`, `punish`, `setTriedSchema`, `schemaSelectedToExecute`), if the mode is PLAYING then
the learning schema is empty. -/
theorem playing_has_no_schema (a : AtomSpace) (petId petName ownerId : String)
    (startSession endSession : Nat) (ops : List Op) (p0 q : Pet)
    (h0 : Pet.construct a petId petName ownerId startSession endSession = .ok p0)
    (h : run ops p0 = some q) (hm : q.mode = .PLAYING) :
    q.learningSchema = [] := by
  rw [construct_eq] at h0
  cases h0
  exact (run_playingIsClean ops _ q ⟨rfl, fun _ => rfl⟩ h).2 hm

/-- Instance of `playing_has_no_schema`: a session for `spin` is started, a trial proposed and
the controller sent to PLAYING. -/
theorem playing_has_no_schema_witness :
    Pet.construct emptyStore "pet1" "Rex" "owner1" 0 0 = .ok rex ∧
    run proposeThenPlay rex = some rexProposedThenPlaying ∧
    rexProposedThenPlaying.mode = .PLAYING ∧ rexProposedThenPlaying.learningSchema = [] :=
  ⟨by decide, by decide, rfl,
    playing_has_no_schema emptyStore "pet1" "Rex" "owner1" 0 0 proposeThenPlay rex
      rexProposedThenPlaying (by decide) (by decide) rfl⟩

/-- C18 fails as stated: from a fresh controller, `startLearning(["spin"], 1)` followed by
`setMode(SCAVENGER_HUNT)` reaches a state whose mode is not LEARNING and whose learning
schema is still `["spin"]`. -/
theorem scavenger_hunt_keeps_schema :
    Pet.construct emptyStore "pet1" "Rex" "owner1" 0 0 = .ok rex ∧
    Option.map Pet.mode (run learnThenHunt rex) = some .SCAVENGER_HUNT ∧
    PetMode.SCAVENGER_HUNT ≠ PetMode.LEARNING ∧
    Option.map Pet.learningSchema (run learnThenHunt rex) = some ["spin"] := by
  decide

/-- C21: `setExemplarAvatarId(new)` leaves by the exception exactly when the previous source
id is non-empty and does not resolve to exactly one store node, or the previous source is
fine (empty or resolved to exactly one node) and `new` is non-empty and does not resolve to
exactly one node.  It has no undefined path, and with both ids empty it returns normally
having changed nothing. -/
theorem setExemplarAvatarId_fails_iff (a : AtomSpace) (id : String) (p : Pet) :
    ((∃ q, setExemplarAvatarId a id p = .thrown q) ↔
      (p.exemplarAvatarId ≠ "" ∧ (a.getHandleSet p.exemplarAvatarId).length ≠ 1) ∨
      ((p.exemplarAvatarId = "" ∨ (a.getHandleSet p.exemplarAvatarId).length = 1) ∧
        id ≠ "" ∧ (a.getHandleSet id).length ≠ 1)) ∧
    setExemplarAvatarId a id p ≠ .undefined ∧
    setExemplarAvatarId a "" { p with exemplarAvatarId := "" }
      = .ok { p with exemplarAvatarId := "" } := by
  refine ⟨?_, ?_, ?_⟩
  · by_cases h1 : sourceResolves a p.exemplarAvatarId
    · by_cases h2 : sourceResolves a id
      · rw [setExemplarAvatarId_of_resolves a id p h1 h2]
        constructor
        · rintro ⟨q, hq⟩
          cases hq
        · rintro (h | h)
          · exact absurd h1 ((not_sourceResolves_iff a _).mpr h)
          · exact absurd h2 ((not_sourceResolves_iff a _).mpr h.2)
      · rw [setExemplarAvatarId_of_new_unresolved a id p h1 h2]
        exact ⟨fun _ => Or.inr ⟨h1, (not_sourceResolves_iff a _).mp h2⟩, fun _ => ⟨_, rfl⟩⟩
    · rw [setExemplarAvatarId_of_old_unresolved a id p h1]
      exact ⟨fun _ => Or.inl ((not_sourceResolves_iff a _).mp h1), fun _ => ⟨_, rfl⟩⟩
  · by_cases h1 : sourceResolves a p.exemplarAvatarId
    · by_cases h2 : sourceResolves a id
      · rw [setExemplarAvatarId_of_resolves a id p h1 h2]
        exact fun h => by cases h
      · rw [setExemplarAvatarId_of_new_unresolved a id p h1 h2]
        exact fun h => by cases h
    · rw [setExemplarAvatarId_of_old_unresolved a id p h1]
      exact fun h => by cases h
  · rw [setExemplarAvatarId_of_resolves a "" { p with exemplarAvatarId := "" }
      (Or.inl rfl) (Or.inl rfl)]
    simp [avatarCalls]

/-- C22: `restartLearning` leaves by the exception, with the object as it was and no call
issued, exactly when the learning schema is empty or the demonstration-source id is empty;
otherwise it returns normally having issued exactly one call, the Exemplar message with the
schema name, the parameters, the owner id and the demonstration-source id, and having
written no member. -/
theorem restartLearning_spec (p : Pet) :
    restartLearning p
      = (if p.learningSchema = [] ∨ p.exemplarAvatarId = "" then .thrown p
        else .ok { p with trace := p.trace
                    ++ [.sendExemplar (p.learningSchema.headD "") p.learningSchema.tail
                          p.ownerId p.exemplarAvatarId] }) := by
  have key : ∀ l, p.learningSchema = l →
      restartLearning p
        = (if p.learningSchema = [] ∨ p.exemplarAvatarId = "" then .thrown p
          else .ok { p with trace := p.trace
                      ++ [.sendExemplar (p.learningSchema.headD "") p.learningSchema.tail
                            p.ownerId p.exemplarAvatarId] }) := by
    intro l hs
    unfold restartLearning
    cases l with
    | nil => simp [hs]
    | cons name args =>
      by_cases hi : p.exemplarAvatarId = ""
      · simp [hs, hi]
      · simp [hs, hi, Pet.emit]
  exact key _ rfl

/-- C23: whenever `endExemplar(schema, t)` passes its checks (its opening debug statement
reads the first token of a non-empty vector, the mode is LEARNING, the window start is set and
the schema argument is empty or equal to the learning schema) with a supplied end timestamp
`t` smaller than the window start, the call returns normally; the learning schema is then not
empty, the persistence step leaves the object as it finds it (no snapshot is marked persistent
and none removed), the calls issued are the encoder run followed by exactly one Exemplar
message, and both window timestamps end undefined. -/
theorem endExemplar_end_before_start_still_sends (a : AtomSpace)
    (commandStatement : List String) (t : Nat) (p : Pet)
    (hlog : ¬ logReadsEmptyFront commandStatement p)
    (hm : p.mode = .LEARNING) (hw : p.exemplarStartTimestamp ≠ UNDEFINED_TIMESTAMP)
    (hc : commandStatement = [] ∨ commandStatement = p.learningSchema)
    (ht : t < p.exemplarStartTimestamp) :
    ∃ schemaName args q, p.learningSchema = schemaName :: args ∧
      endExemplar a commandStatement t p = .ok q ∧
      updatePersistentSpaceMaps a { p with exemplarEndTimestamp := t }
        = { p with exemplarEndTimestamp := t } ∧
      q.trace = p.trace
        ++ [.behaviorEncoder schemaName p.exemplarStartTimestamp t p.exemplarAvatarId,
            .sendExemplar schemaName args p.ownerId p.exemplarAvatarId] ∧
      q.trace.filter Event.toLearningService
        = p.trace.filter Event.toLearningService
          ++ [.sendExemplar schemaName args p.ownerId p.exemplarAvatarId] ∧
      q.exemplarStartTimestamp = UNDEFINED_TIMESTAMP ∧
      q.exemplarEndTimestamp = UNDEFINED_TIMESTAMP := by
  have key : ∀ l, p.learningSchema = l → ∃ schemaName args, l = schemaName :: args := by
    intro l hs
    cases l with
    | nil =>
      exact absurd ((logReadsEmptyFront_iff commandStatement p).mpr
        ⟨hc.elim id fun h => h.trans hs, hs⟩) hlog
    | cons name args => exact ⟨name, args, rfl⟩
  obtain ⟨schemaName, args, hs⟩ := key _ rfl
  refine ⟨schemaName, args, _, hs,
    endExemplar_of_end_before_start a commandStatement t p schemaName args hm hw hs hc ht,
    updatePersistentSpaceMaps_of_end_before_start a { p with exemplarEndTimestamp := t } ht,
    rfl, ?_, rfl, rfl⟩
  simp [List.filter_append, Event.toLearningService]

/-- Instance of `endExemplar_end_before_start_still_sends`: the state that
`startLearning(["spin"], 1); startExemplar([], 4)` reaches from construction, then
`endExemplar([], 3)` against a store that would offer two space maps. -/
theorem endExemplar_end_before_start_still_sends_witness :
    Pet.construct emptyStore "pet1" "Rex" "owner1" 0 0 = .ok rex ∧
    run learnSpinWithWindow rex = some rexSpinWindow ∧
    (3 : Nat) < rexSpinWindow.exemplarStartTimestamp ∧
    ∃ schemaName args q, rexSpinWindow.learningSchema = schemaName :: args ∧
      endExemplar avatar42Store [] 3 rexSpinWindow = .ok q ∧
      updatePersistentSpaceMaps avatar42Store { rexSpinWindow with exemplarEndTimestamp := 3 }
        = { rexSpinWindow with exemplarEndTimestamp := 3 } ∧
      q.trace = rexSpinWindow.trace
        ++ [.behaviorEncoder schemaName rexSpinWindow.exemplarStartTimestamp 3
              rexSpinWindow.exemplarAvatarId,
            .sendExemplar schemaName args rexSpinWindow.ownerId
              rexSpinWindow.exemplarAvatarId] ∧
      q.trace.filter Event.toLearningService
        = rexSpinWindow.trace.filter Event.toLearningService
          ++ [.sendExemplar schemaName args rexSpinWindow.ownerId
                rexSpinWindow.exemplarAvatarId] ∧
      q.exemplarStartTimestamp = UNDEFINED_TIMESTAMP ∧
      q.exemplarEndTimestamp = UNDEFINED_TIMESTAMP :=
  ⟨by decide, by decide, by decide,
    endExemplar_end_before_start_still_sends avatar42Store [] 3 rexSpinWindow (by decide) rfl
      (by decide) (Or.inl rfl) (by decide)⟩

/-- C24 (the code at the failing input): learning `fetch ball` with the trial `candidate1`
pending (candidate-executed flag false), `trySchema([], 5)` returns normally and the one
call it issues is the rule engine's `tryExecuteSchema("fetch")`: the request names the first
token of the learning schema, not the tried schema `candidate1`. -/
theorem trySchema_reexecution_names_learning_schema :
    rexTryingFetch.candidateSchemaExecuted = false ∧
    rexTryingFetch.triedSchema = "candidate1" ∧
    rexTryingFetch.learningSchema = ["fetch", "ball"] ∧
    trySchema [] 5 rexTryingFetch
      = .ok { rexTryingFetch with
                trace := rexTryingFetch.trace ++ [.tryExecuteSchema "fetch"] } ∧
    Event.tryExecuteSchema "fetch" ≠ Event.tryExecuteSchema "candidate1" := by
  decide

/-- C25 (as amended): in LEARNING mode with a non-empty learning schema and the window end
undefined, a schema argument that is empty or equal to the learning schema and a timestamp
`t` other than 0, the value of the undefined sentinel: `startExemplar(schema, t)` returns
normally, right after it `isExemplarInProgress()` is true, and a following `endExemplar` with
an empty or matching schema argument is not rejected: it returns normally with the window
closed, so not with the object unchanged. -/
theorem startExemplar_opens_window (a : AtomSpace) (commandStatement next : List String)
    (t t2 : Nat) (p : Pet)
    (hm : p.mode = .LEARNING) (hs : p.learningSchema ≠ [])
    (he : p.exemplarEndTimestamp = UNDEFINED_TIMESTAMP)
    (hc : commandStatement = [] ∨ commandStatement = p.learningSchema)
    (hn : next = [] ∨ next = p.learningSchema)
    (ht : t ≠ UNDEFINED_TIMESTAMP) :
    ∃ q r, startExemplar commandStatement t p = .ok q ∧
      isExemplarInProgress q = true ∧
      endExemplar a next t2 q = .ok r ∧
      r.exemplarStartTimestamp = UNDEFINED_TIMESTAMP ∧ r ≠ q := by
  have key : ∀ l, p.learningSchema = l → ∃ schemaName args, l = schemaName :: args := by
    intro l hl
    cases l with
    | nil => exact absurd hl hs
    | cons name args => exact ⟨name, args, rfl⟩
  obtain ⟨schemaName, args, hcons⟩ := key _ rfl
  refine ⟨_, _,
    startExemplar_of_learning commandStatement t p
      (not_logReadsEmptyFront_of_schema commandStatement p hs) hm hc,
    ?_,
    endExemplar_of_open_window a next t2
      { p with candidateSchemaExecuted := true, exemplarStartTimestamp := t }
      schemaName args hm ht hcons hn,
    rfl, ?_⟩
  · simp [isExemplarInProgress, isInLearningMode, hm, he, ht]
  · intro h
    exact ht (congrArg Pet.exemplarStartTimestamp h).symm

/-- Instance of `startExemplar_opens_window`: learning `fetch ball`, `startExemplar([], 7)`
followed by `endExemplar(["fetch", "ball"], 9)`. -/
theorem startExemplar_opens_window_witness :
    rexLearningFetch.learningSchema ≠ [] ∧ (7 : Nat) ≠ UNDEFINED_TIMESTAMP ∧
    ∃ q r, startExemplar [] 7 rexLearningFetch = .ok q ∧
      isExemplarInProgress q = true ∧
      endExemplar avatar42Store ["fetch", "ball"] 9 q = .ok r ∧
      r.exemplarStartTimestamp = UNDEFINED_TIMESTAMP ∧ r ≠ q :=
  ⟨by decide, by decide, startExemplar_opens_window avatar42Store [] ["fetch", "ball"] 7 9
    rexLearningFetch rfl (by decide) rfl (Or.inl rfl) (Or.inr rfl) (by decide)⟩

/-- C25 fails as stated at `t = 0`: learning `fetch ball`, `startExemplar([], 0)` returns with
the window start at the undefined sentinel, `isExemplarInProgress()` is false and the
following `endExemplar([], 5)` is rejected, returning with the object unchanged.  It also
fails in a state whose window end is not undefined, where `isExemplarInProgress()` stays
false after `startExemplar([], 7)`. -/
theorem startExemplar_at_zero_opens_no_window :
    rexLearningFetch.mode = .LEARNING ∧
    startExemplar [] 0 rexLearningFetch = .ok rexLearningFetch ∧
    isExemplarInProgress rexLearningFetch = false ∧
    endExemplar avatar42Store [] 5 rexLearningFetch = .ok rexLearningFetch ∧
    Option.map isExemplarInProgress
      (startExemplar [] 7 { rexLearningFetch with exemplarEndTimestamp := 3 }).after
        = some false := by
  decide

/-- C26 (the code at the failing inputs): on the freshly constructed controller `rex`, whose
learning schema is empty, `trySchema([], 5)` reads the first token of the empty learning
schema: the call is undefined.  After `setMode(LEARNING)` the learning schema is still empty,
and `startExemplar([], 1)`, `endExemplar([], 2)` and the forced stop inside
`startLearning(["sit"], 3)` each read the first token of the empty learning schema, while
`stopLearning([], 3)` reads that of its empty argument, which is the learning schema's
equal: these calls are undefined too. -/
theorem empty_schema_head_is_read :
    Pet.construct emptyStore "pet1" "Rex" "owner1" 0 0 = .ok rex ∧
    rex.learningSchema = [] ∧
    trySchema [] 5 rex = .undefined ∧
    run [.setMode emptyStore .LEARNING] rex = some rexLearningUnnamed ∧
    rexLearningUnnamed.learningSchema = [] ∧
    startExemplar [] 1 rexLearningUnnamed = .undefined ∧
    endExemplar emptyStore [] 2 rexLearningUnnamed = .undefined ∧
    stopLearning emptyStore [] 3 rexLearningUnnamed = .undefined ∧
    startLearning emptyStore (.vector ["sit"]) 3 rexLearningUnnamed = .undefined := by
  decide

/-- C27 (as amended): when the non-empty demonstration source does not resolve to exactly one
store node, `setMode(PLAYING)` leaves by the exception with the mode already PLAYING and
every other member as it was, the trace included: learning schema, tried schema, exemplar
window and demonstration source are untouched and no feedback message is emitted.  A
`stopLearning` with the matching schema `schemaName :: args` that fails this way has, in
addition, reset both window timestamps, recorded the session end timestamp and issued the
trick annotation and the StopLearning message; its learning schema, tried schema and
demonstration source are untouched and it emits no feedback message either. -/
theorem setMode_PLAYING_failure_changes_mode_only (a : AtomSpace) (p : Pet)
    (hid : p.exemplarAvatarId ≠ "")
    (hres : (a.getHandleSet p.exemplarAvatarId).length ≠ 1) :
    setMode a .PLAYING p = .thrown { p with mode := .PLAYING } ∧
    ∀ (schemaName : String) (args : List String) (t : Nat),
      p.learningSchema = schemaName :: args →
      stopLearning a (schemaName :: args) t p
        = .thrown { p with
            mode := .PLAYING,
            exemplarStartTimestamp := UNDEFINED_TIMESTAMP,
            exemplarEndTimestamp := UNDEFINED_TIMESTAMP,
            endLearningSessionTimestamp := t,
            trace := p.trace
              ++ [.trickSession schemaName p.startLearningSessionTimestamp t,
                  .sendStopLearning schemaName args] } :=
  ⟨setMode_PLAYING_of_unresolved a p ((not_sourceResolves_iff a _).mpr ⟨hid, hres⟩),
    fun schemaName args t hs =>
      stopLearning_of_unresolved a t p schemaName args hs
        ((not_sourceResolves_iff a _).mpr ⟨hid, hres⟩)⟩

/-- Instance of `setMode_PLAYING_failure_changes_mode_only`: the controller learning `spin`
from `ghost` with a window open since 4, against the store without nodes. -/
theorem setMode_PLAYING_failure_changes_mode_only_witness :
    rexGhostWindow.exemplarAvatarId ≠ "" ∧
    (emptyStore.getHandleSet rexGhostWindow.exemplarAvatarId).length ≠ 1 ∧
    setMode emptyStore .PLAYING rexGhostWindow
      = .thrown { rexGhostWindow with mode := .PLAYING } ∧
    stopLearning emptyStore ("spin" :: []) 9 rexGhostWindow
      = .thrown { rexGhostWindow with
          mode := .PLAYING,
          exemplarStartTimestamp := UNDEFINED_TIMESTAMP,
          exemplarEndTimestamp := UNDEFINED_TIMESTAMP,
          endLearningSessionTimestamp := 9,
          trace := rexGhostWindow.trace
            ++ [.trickSession "spin" rexGhostWindow.startLearningSessionTimestamp 9,
                .sendStopLearning "spin" []] } :=
  ⟨by decide, by decide,
    (setMode_PLAYING_failure_changes_mode_only emptyStore rexGhostWindow (by decide)
      (by decide)).1,
    (setMode_PLAYING_failure_changes_mode_only emptyStore rexGhostWindow (by decide)
      (by decide)).2 "spin" [] 9 rfl⟩

/-- C27 fails as stated: the controller learning `spin` from the unresolvable source `ghost`
with a window open since 4 is in LEARNING mode; the failing `setMode(PLAYING)` leaves it in
PLAYING mode, and the failing `stopLearning(["spin"], 9)` leaves it in PLAYING mode with the
window start reset from 4 to the undefined sentinel. -/
theorem setMode_PLAYING_failure_is_not_atomic :
    rexGhostWindow.mode = .LEARNING ∧ rexGhostWindow.exemplarStartTimestamp = 4 ∧
    Option.map Pet.mode (setMode emptyStore .PLAYING rexGhostWindow).after = some .PLAYING ∧
    setMode emptyStore .PLAYING rexGhostWindow ≠ .ok rexGhostWindow ∧
    setMode emptyStore .PLAYING rexGhostWindow ≠ .thrown rexGhostWindow ∧
    Option.map Pet.mode (stopLearning emptyStore ["spin"] 9 rexGhostWindow).after
      = some .PLAYING ∧
    Option.map Pet.exemplarStartTimestamp
      (stopLearning emptyStore ["spin"] 9 rexGhostWindow).after = some 0 ∧
    stopLearning emptyStore ["spin"] 9 rexGhostWindow ≠ .thrown rexGhostWindow := by
  decide

end OperationalPetController
